import Mathlib

/-!
Verification of the dcrd address subsystem (package stdaddr) and the
Hash160 digest chain.  The repository ships the stdaddr test suite and the
digest-chain utility; the address implementation itself, together with the
external base58 checksummed codec (BLAKE-256 based) and the curve key
parsers it calls, is modelled here from the specification, pinned down by
the concrete vectors hard-coded in address_test.go.  Bytes are naturals
below 256 and byte strings are lists of naturals.
-/

set_option maxRecDepth 10000
set_option maxHeartbeats 4000000

/-- Value of a big-endian digit list in base `b`. -/
def digitsToNat (b : Nat) (ds : List Nat) : Nat := ds.foldl (fun acc d => acc * b + d) 0

/-- Big-endian digits of `n` in base `b`, most significant first, empty for 0.
The first argument is recursion fuel; it is sufficient whenever `n < b ^ fuel`. -/
def natDigitsBEF (fuel b n : Nat) : List Nat :=
  match fuel with
  | 0 => []
  | fuel + 1 => if n = 0 then [] else natDigitsBEF fuel b (n / b) ++ [n % b]

/-- Fixed-width big-endian byte rendering, accumulator form. -/
def beBytesAux (k n : Nat) (acc : List Nat) : List Nat :=
  match k with
  | 0 => acc
  | k + 1 => beBytesAux k (n / 256) (n % 256 :: acc)

/-- Fixed-width (`k` bytes) big-endian byte rendering of `n`. -/
def beBytesFixed (k n : Nat) : List Nat := beBytesAux k n []

/-- Number of bytes in the minimal big-endian rendering of `n` (0 for 0),
with explicit recursion fuel sufficient whenever `n < 256 ^ fuel`. -/
def natLen256 (fuel n : Nat) : Nat :=
  match fuel with
  | 0 => 0
  | fuel + 1 => if n = 0 then 0 else natLen256 fuel (n / 256) + 1

/-- Big-endian value of a byte list. -/
def beNat (bs : List Nat) : Nat := digitsToNat 256 bs

/-- Little-endian value of a byte list. -/
def leNat (bs : List Nat) : Nat := digitsToNat 256 bs.reverse

/-- Fixed-width little-endian byte rendering of `n`. -/
def leBytesFixed (k n : Nat) : List Nat := (beBytesFixed k n).reverse

/-- Modular exponentiation with explicit recursion fuel; sufficient whenever
the exponent has fewer than `fuel` binary digits. -/
def powModF (fuel b e m : Nat) : Nat :=
  match fuel with
  | 0 => 1 % m
  | fuel + 1 =>
    if e = 0 then 1 % m
    else
      let h := powModF fuel ((b * b) % m) (e / 2) m
      if e % 2 = 1 then (h * (b % m)) % m else h

/-- Number of copies of `x` at the front of a list. -/
def countLeading [DecidableEq α] (x : α) : List α → Nat
  | [] => 0
  | y :: ys => if y = x then countLeading x ys + 1 else 0

/-! ### BLAKE-256

Modelled from the spec: the repository's checksummed text codec delegates its
checksum to the external BLAKE-256 hash (crypto/blake256), which is not under
src/.  The implementation below follows the published BLAKE-256 definition
(14 rounds, 32-bit words, SHA-256 IV, pi-digit constants). -/

/-- Modelled from the spec: BLAKE-256 initial chaining value (the SHA-256 IV). -/
def blakeIV : List Nat :=
  [0x6A09E667, 0xBB67AE85, 0x3C6EF372, 0xA54FF53A,
   0x510E527F, 0x9B05688C, 0x1F83D9AB, 0x5BE0CD19]

/-- A 16-word BLAKE-256 working state. -/
structure V16 where
  mk ::
  g0 : Nat
  g1 : Nat
  g2 : Nat
  g3 : Nat
  g4 : Nat
  g5 : Nat
  g6 : Nat
  g7 : Nat
  g8 : Nat
  g9 : Nat
  g10 : Nat
  g11 : Nat
  g12 : Nat
  g13 : Nat
  g14 : Nat
  g15 : Nat

/-- The four working variables of a BLAKE-256 G quarter-round. -/
structure Q4 where
  mk ::
  qa : Nat
  qb : Nat
  qc : Nat
  qd : Nat

/-- Modelled from the spec: the BLAKE-256 G quarter-round on working
variables `a b c d` with pre-permuted message/constant inputs `mA mB`:
two add-xor-rotate half-steps with rotations 16, 12, 8 and 7. -/
def blakeG (a b c d mA mB : Nat) : Q4 :=
  let a := Nat.mod (Nat.add (Nat.add a b) mA) 4294967296
  let x := Nat.xor d a
  let d := Nat.lor (Nat.shiftRight x 16) (Nat.shiftLeft (Nat.land x 65535) 16)
  let c := Nat.mod (Nat.add c d) 4294967296
  let x := Nat.xor b c
  let b := Nat.lor (Nat.shiftRight x 12) (Nat.shiftLeft (Nat.land x 4095) 20)
  let a := Nat.mod (Nat.add (Nat.add a b) mB) 4294967296
  let x := Nat.xor d a
  let d := Nat.lor (Nat.shiftRight x 8) (Nat.shiftLeft (Nat.land x 255) 24)
  let c := Nat.mod (Nat.add c d) 4294967296
  let x := Nat.xor b c
  let b := Nat.lor (Nat.shiftRight x 7) (Nat.shiftLeft (Nat.land x 127) 25)
  ⟨a, b, c, d⟩

/-- Modelled from the spec: round 0 of the BLAKE-256 compression (column
step then diagonal step, permutation row and pi constants as literals). -/
def blakeRnd0 (m0 m1 m2 m3 m4 m5 m6 m7 m8 m9 m10 m11 m12 m13 m14 m15 : Nat) (v : V16) : V16 :=
  match v with
  | ⟨v0, v1, v2, v3, v4, v5, v6, v7, v8, v9, v10, v11, v12, v13, v14, v15⟩ =>
    match blakeG v0 v4 v8 v12 (Nat.xor m0 2242054355) (Nat.xor m1 608135816) with
    | ⟨v0, v4, v8, v12⟩ =>
    match blakeG v1 v5 v9 v13 (Nat.xor m2 57701188) (Nat.xor m3 320440878) with
    | ⟨v1, v5, v9, v13⟩ =>
    match blakeG v2 v6 v10 v14 (Nat.xor m4 698298832) (Nat.xor m5 2752067618) with
    | ⟨v2, v6, v10, v14⟩ =>
    match blakeG v3 v7 v11 v15 (Nat.xor m6 3964562569) (Nat.xor m7 137296536) with
    | ⟨v3, v7, v11, v15⟩ =>
    match blakeG v0 v5 v10 v15 (Nat.xor m8 953160567) (Nat.xor m9 1160258022) with
    | ⟨v0, v5, v10, v15⟩ =>
    match blakeG v1 v6 v11 v12 (Nat.xor m10 887688300) (Nat.xor m11 3193202383) with
    | ⟨v1, v6, v11, v12⟩ =>
    match blakeG v2 v7 v8 v13 (Nat.xor m12 3380367581) (Nat.xor m13 3232508343) with
    | ⟨v2, v7, v8, v13⟩ =>
    match blakeG v3 v4 v9 v14 (Nat.xor m14 3041331479) (Nat.xor m15 1065670069) with
    | ⟨v3, v4, v9, v14⟩ =>
    ⟨v0, v1, v2, v3, v4, v5, v6, v7, v8, v9, v10, v11, v12, v13, v14, v15⟩

/-- Modelled from the spec: round 1 of the BLAKE-256 compression (column
step then diagonal step, permutation row and pi constants as literals). -/
def blakeRnd1 (m0 m1 m2 m3 m4 m5 m6 m7 m8 m9 m10 m11 m12 m13 m14 m15 : Nat) (v : V16) : V16 :=
  match v with
  | ⟨v0, v1, v2, v3, v4, v5, v6, v7, v8, v9, v10, v11, v12, v13, v14, v15⟩ =>
    match blakeG v0 v4 v8 v12 (Nat.xor m14 3193202383) (Nat.xor m10 1065670069) with
    | ⟨v0, v4, v8, v12⟩ =>
    match blakeG v1 v5 v9 v13 (Nat.xor m4 1160258022) (Nat.xor m8 2752067618) with
    | ⟨v1, v5, v9, v13⟩ =>
    match blakeG v2 v6 v10 v14 (Nat.xor m9 3041331479) (Nat.xor m15 953160567) with
    | ⟨v2, v6, v10, v14⟩ =>
    match blakeG v3 v7 v11 v15 (Nat.xor m13 137296536) (Nat.xor m6 3380367581) with
    | ⟨v3, v7, v11, v15⟩ =>
    match blakeG v0 v5 v10 v15 (Nat.xor m1 3232508343) (Nat.xor m12 2242054355) with
    | ⟨v0, v5, v10, v15⟩ =>
    match blakeG v1 v6 v11 v12 (Nat.xor m0 320440878) (Nat.xor m2 608135816) with
    | ⟨v1, v6, v11, v12⟩ =>
    match blakeG v2 v7 v8 v13 (Nat.xor m11 3964562569) (Nat.xor m7 887688300) with
    | ⟨v2, v7, v8, v13⟩ =>
    match blakeG v3 v4 v9 v14 (Nat.xor m5 57701188) (Nat.xor m3 698298832) with
    | ⟨v3, v4, v9, v14⟩ =>
    ⟨v0, v1, v2, v3, v4, v5, v6, v7, v8, v9, v10, v11, v12, v13, v14, v15⟩

/-- Modelled from the spec: round 2 of the BLAKE-256 compression (column
step then diagonal step, permutation row and pi constants as literals). -/
def blakeRnd2 (m0 m1 m2 m3 m4 m5 m6 m7 m8 m9 m10 m11 m12 m13 m14 m15 : Nat) (v : V16) : V16 :=
  match v with
  | ⟨v0, v1, v2, v3, v4, v5, v6, v7, v8, v9, v10, v11, v12, v13, v14, v15⟩ =>
    match blakeG v0 v4 v8 v12 (Nat.xor m11 1160258022) (Nat.xor m8 887688300) with
    | ⟨v0, v4, v8, v12⟩ =>
    match blakeG v1 v5 v9 v13 (Nat.xor m12 608135816) (Nat.xor m0 3232508343) with
    | ⟨v1, v5, v9, v13⟩ =>
    match blakeG v2 v6 v10 v14 (Nat.xor m5 320440878) (Nat.xor m2 698298832) with
    | ⟨v2, v6, v10, v14⟩ =>
    match blakeG v3 v7 v11 v15 (Nat.xor m15 3380367581) (Nat.xor m13 3041331479) with
    | ⟨v3, v7, v11, v15⟩ =>
    match blakeG v0 v5 v10 v15 (Nat.xor m10 1065670069) (Nat.xor m14 3193202383) with
    | ⟨v0, v5, v10, v15⟩ =>
    match blakeG v1 v6 v11 v12 (Nat.xor m3 137296536) (Nat.xor m6 57701188) with
    | ⟨v1, v6, v11, v12⟩ =>
    match blakeG v2 v7 v8 v13 (Nat.xor m7 2242054355) (Nat.xor m1 3964562569) with
    | ⟨v2, v7, v8, v13⟩ =>
    match blakeG v3 v4 v9 v14 (Nat.xor m9 2752067618) (Nat.xor m4 953160567) with
    | ⟨v3, v4, v9, v14⟩ =>
    ⟨v0, v1, v2, v3, v4, v5, v6, v7, v8, v9, v10, v11, v12, v13, v14, v15⟩

/-- Modelled from the spec: round 3 of the BLAKE-256 compression (column
step then diagonal step, permutation row and pi constants as literals). -/
def blakeRnd3 (m0 m1 m2 m3 m4 m5 m6 m7 m8 m9 m10 m11 m12 m13 m14 m15 : Nat) (v : V16) : V16 :=
  match v with
  | ⟨v0, v1, v2, v3, v4, v5, v6, v7, v8, v9, v10, v11, v12, v13, v14, v15⟩ =>
    match blakeG v0 v4 v8 v12 (Nat.xor m7 953160567) (Nat.xor m9 3964562569) with
    | ⟨v0, v4, v8, v12⟩ =>
    match blakeG v1 v5 v9 v13 (Nat.xor m3 2242054355) (Nat.xor m1 57701188) with
    | ⟨v1, v5, v9, v13⟩ =>
    match blakeG v2 v6 v10 v14 (Nat.xor m13 3232508343) (Nat.xor m12 3380367581) with
    | ⟨v2, v6, v10, v14⟩ =>
    match blakeG v3 v7 v11 v15 (Nat.xor m11 1065670069) (Nat.xor m14 887688300) with
    | ⟨v3, v7, v11, v15⟩ =>
    match blakeG v0 v5 v10 v15 (Nat.xor m2 137296536) (Nat.xor m6 320440878) with
    | ⟨v0, v5, v10, v15⟩ =>
    match blakeG v1 v6 v11 v12 (Nat.xor m5 3193202383) (Nat.xor m10 698298832) with
    | ⟨v1, v6, v11, v12⟩ =>
    match blakeG v2 v7 v8 v13 (Nat.xor m4 608135816) (Nat.xor m0 2752067618) with
    | ⟨v2, v7, v8, v13⟩ =>
    match blakeG v3 v4 v9 v14 (Nat.xor m15 1160258022) (Nat.xor m8 3041331479) with
    | ⟨v3, v4, v9, v14⟩ =>
    ⟨v0, v1, v2, v3, v4, v5, v6, v7, v8, v9, v10, v11, v12, v13, v14, v15⟩

/-- Modelled from the spec: round 4 of the BLAKE-256 compression (column
step then diagonal step, permutation row and pi constants as literals). -/
def blakeRnd4 (m0 m1 m2 m3 m4 m5 m6 m7 m8 m9 m10 m11 m12 m13 m14 m15 : Nat) (v : V16) : V16 :=
  match v with
  | ⟨v0, v1, v2, v3, v4, v5, v6, v7, v8, v9, v10, v11, v12, v13, v14, v15⟩ =>
    match blakeG v0 v4 v8 v12 (Nat.xor m9 608135816) (Nat.xor m0 953160567) with
    | ⟨v0, v4, v8, v12⟩ =>
    match blakeG v1 v5 v9 v13 (Nat.xor m5 3964562569) (Nat.xor m7 698298832) with
    | ⟨v1, v5, v9, v13⟩ =>
    match blakeG v2 v6 v10 v14 (Nat.xor m2 2752067618) (Nat.xor m4 320440878) with
    | ⟨v2, v6, v10, v14⟩ =>
    match blakeG v3 v7 v11 v15 (Nat.xor m10 3041331479) (Nat.xor m15 3193202383) with
    | ⟨v3, v7, v11, v15⟩ =>
    match blakeG v0 v5 v10 v15 (Nat.xor m14 2242054355) (Nat.xor m1 1065670069) with
    | ⟨v0, v5, v10, v15⟩ =>
    match blakeG v1 v6 v11 v12 (Nat.xor m11 3232508343) (Nat.xor m12 887688300) with
    | ⟨v1, v6, v11, v12⟩ =>
    match blakeG v2 v7 v8 v13 (Nat.xor m6 1160258022) (Nat.xor m8 137296536) with
    | ⟨v2, v7, v8, v13⟩ =>
    match blakeG v3 v4 v9 v14 (Nat.xor m3 3380367581) (Nat.xor m13 57701188) with
    | ⟨v3, v4, v9, v14⟩ =>
    ⟨v0, v1, v2, v3, v4, v5, v6, v7, v8, v9, v10, v11, v12, v13, v14, v15⟩

/-- Modelled from the spec: round 5 of the BLAKE-256 compression (column
step then diagonal step, permutation row and pi constants as literals). -/
def blakeRnd5 (m0 m1 m2 m3 m4 m5 m6 m7 m8 m9 m10 m11 m12 m13 m14 m15 : Nat) (v : V16) : V16 :=
  match v with
  | ⟨v0, v1, v2, v3, v4, v5, v6, v7, v8, v9, v10, v11, v12, v13, v14, v15⟩ =>
    match blakeG v0 v4 v8 v12 (Nat.xor m2 3232508343) (Nat.xor m12 320440878) with
    | ⟨v0, v4, v8, v12⟩ =>
    match blakeG v1 v5 v9 v13 (Nat.xor m6 3193202383) (Nat.xor m10 137296536) with
    | ⟨v1, v5, v9, v13⟩ =>
    match blakeG v2 v6 v10 v14 (Nat.xor m0 887688300) (Nat.xor m11 608135816) with
    | ⟨v2, v6, v10, v14⟩ =>
    match blakeG v3 v7 v11 v15 (Nat.xor m8 57701188) (Nat.xor m3 1160258022) with
    | ⟨v3, v7, v11, v15⟩ =>
    match blakeG v0 v5 v10 v15 (Nat.xor m4 3380367581) (Nat.xor m13 2752067618) with
    | ⟨v0, v5, v10, v15⟩ =>
    match blakeG v1 v6 v11 v12 (Nat.xor m7 698298832) (Nat.xor m5 3964562569) with
    | ⟨v1, v6, v11, v12⟩ =>
    match blakeG v2 v7 v8 v13 (Nat.xor m15 1065670069) (Nat.xor m14 3041331479) with
    | ⟨v2, v7, v8, v13⟩ =>
    match blakeG v3 v4 v9 v14 (Nat.xor m1 953160567) (Nat.xor m9 2242054355) with
    | ⟨v3, v4, v9, v14⟩ =>
    ⟨v0, v1, v2, v3, v4, v5, v6, v7, v8, v9, v10, v11, v12, v13, v14, v15⟩

/-- Modelled from the spec: round 6 of the BLAKE-256 compression (column
step then diagonal step, permutation row and pi constants as literals). -/
def blakeRnd6 (m0 m1 m2 m3 m4 m5 m6 m7 m8 m9 m10 m11 m12 m13 m14 m15 : Nat) (v : V16) : V16 :=
  match v with
  | ⟨v0, v1, v2, v3, v4, v5, v6, v7, v8, v9, v10, v11, v12, v13, v14, v15⟩ =>
    match blakeG v0 v4 v8 v12 (Nat.xor m12 698298832) (Nat.xor m5 3232508343) with
    | ⟨v0, v4, v8, v12⟩ =>
    match blakeG v1 v5 v9 v13 (Nat.xor m1 3041331479) (Nat.xor m15 2242054355) with
    | ⟨v1, v5, v9, v13⟩ =>
    match blakeG v2 v6 v10 v14 (Nat.xor m14 3380367581) (Nat.xor m13 1065670069) with
    | ⟨v2, v6, v10, v14⟩ =>
    match blakeG v3 v7 v11 v15 (Nat.xor m4 3193202383) (Nat.xor m10 2752067618) with
    | ⟨v3, v7, v11, v15⟩ =>
    match blakeG v0 v5 v10 v15 (Nat.xor m0 3964562569) (Nat.xor m7 608135816) with
    | ⟨v0, v5, v10, v15⟩ =>
    match blakeG v1 v6 v11 v12 (Nat.xor m6 57701188) (Nat.xor m3 137296536) with
    | ⟨v1, v6, v11, v12⟩ =>
    match blakeG v2 v7 v8 v13 (Nat.xor m9 320440878) (Nat.xor m2 953160567) with
    | ⟨v2, v7, v8, v13⟩ =>
    match blakeG v3 v4 v9 v14 (Nat.xor m8 887688300) (Nat.xor m11 1160258022) with
    | ⟨v3, v4, v9, v14⟩ =>
    ⟨v0, v1, v2, v3, v4, v5, v6, v7, v8, v9, v10, v11, v12, v13, v14, v15⟩

/-- Modelled from the spec: round 7 of the BLAKE-256 compression (column
step then diagonal step, permutation row and pi constants as literals). -/
def blakeRnd7 (m0 m1 m2 m3 m4 m5 m6 m7 m8 m9 m10 m11 m12 m13 m14 m15 : Nat) (v : V16) : V16 :=
  match v with
  | ⟨v0, v1, v2, v3, v4, v5, v6, v7, v8, v9, v10, v11, v12, v13, v14, v15⟩ =>
    match blakeG v0 v4 v8 v12 (Nat.xor m13 887688300) (Nat.xor m11 3380367581) with
    | ⟨v0, v4, v8, v12⟩ =>
    match blakeG v1 v5 v9 v13 (Nat.xor m7 1065670069) (Nat.xor m14 3964562569) with
    | ⟨v1, v5, v9, v13⟩ =>
    match blakeG v2 v6 v10 v14 (Nat.xor m12 2242054355) (Nat.xor m1 3232508343) with
    | ⟨v2, v6, v10, v14⟩ =>
    match blakeG v3 v7 v11 v15 (Nat.xor m3 953160567) (Nat.xor m9 57701188) with
    | ⟨v3, v7, v11, v15⟩ =>
    match blakeG v0 v5 v10 v15 (Nat.xor m5 608135816) (Nat.xor m0 698298832) with
    | ⟨v0, v5, v10, v15⟩ =>
    match blakeG v1 v6 v11 v12 (Nat.xor m15 2752067618) (Nat.xor m4 3041331479) with
    | ⟨v1, v6, v11, v12⟩ =>
    match blakeG v2 v7 v8 v13 (Nat.xor m8 137296536) (Nat.xor m6 1160258022) with
    | ⟨v2, v7, v8, v13⟩ =>
    match blakeG v3 v4 v9 v14 (Nat.xor m2 3193202383) (Nat.xor m10 320440878) with
    | ⟨v3, v4, v9, v14⟩ =>
    ⟨v0, v1, v2, v3, v4, v5, v6, v7, v8, v9, v10, v11, v12, v13, v14, v15⟩

/-- Modelled from the spec: round 8 of the BLAKE-256 compression (column
step then diagonal step, permutation row and pi constants as literals). -/
def blakeRnd8 (m0 m1 m2 m3 m4 m5 m6 m7 m8 m9 m10 m11 m12 m13 m14 m15 : Nat) (v : V16) : V16 :=
  match v with
  | ⟨v0, v1, v2, v3, v4, v5, v6, v7, v8, v9, v10, v11, v12, v13, v14, v15⟩ =>
    match blakeG v0 v4 v8 v12 (Nat.xor m6 3041331479) (Nat.xor m15 137296536) with
    | ⟨v0, v4, v8, v12⟩ =>
    match blakeG v1 v5 v9 v13 (Nat.xor m14 953160567) (Nat.xor m9 1065670069) with
    | ⟨v1, v5, v9, v13⟩ =>
    match blakeG v2 v6 v10 v14 (Nat.xor m11 57701188) (Nat.xor m3 887688300) with
    | ⟨v2, v6, v10, v14⟩ =>
    match blakeG v3 v7 v11 v15 (Nat.xor m0 1160258022) (Nat.xor m8 608135816) with
    | ⟨v3, v7, v11, v15⟩ =>
    match blakeG v0 v5 v10 v15 (Nat.xor m12 320440878) (Nat.xor m2 3232508343) with
    | ⟨v0, v5, v10, v15⟩ =>
    match blakeG v1 v6 v11 v12 (Nat.xor m13 3964562569) (Nat.xor m7 3380367581) with
    | ⟨v1, v6, v11, v12⟩ =>
    match blakeG v2 v7 v8 v13 (Nat.xor m1 2752067618) (Nat.xor m4 2242054355) with
    | ⟨v2, v7, v8, v13⟩ =>
    match blakeG v3 v4 v9 v14 (Nat.xor m10 698298832) (Nat.xor m5 3193202383) with
    | ⟨v3, v4, v9, v14⟩ =>
    ⟨v0, v1, v2, v3, v4, v5, v6, v7, v8, v9, v10, v11, v12, v13, v14, v15⟩

/-- Modelled from the spec: round 9 of the BLAKE-256 compression (column
step then diagonal step, permutation row and pi constants as literals). -/
def blakeRnd9 (m0 m1 m2 m3 m4 m5 m6 m7 m8 m9 m10 m11 m12 m13 m14 m15 : Nat) (v : V16) : V16 :=
  match v with
  | ⟨v0, v1, v2, v3, v4, v5, v6, v7, v8, v9, v10, v11, v12, v13, v14, v15⟩ =>
    match blakeG v0 v4 v8 v12 (Nat.xor m10 320440878) (Nat.xor m2 3193202383) with
    | ⟨v0, v4, v8, v12⟩ =>
    match blakeG v1 v5 v9 v13 (Nat.xor m8 2752067618) (Nat.xor m4 1160258022) with
    | ⟨v1, v5, v9, v13⟩ =>
    match blakeG v2 v6 v10 v14 (Nat.xor m7 137296536) (Nat.xor m6 3964562569) with
    | ⟨v2, v6, v10, v14⟩ =>
    match blakeG v3 v7 v11 v15 (Nat.xor m1 698298832) (Nat.xor m5 2242054355) with
    | ⟨v3, v7, v11, v15⟩ =>
    match blakeG v0 v5 v10 v15 (Nat.xor m15 887688300) (Nat.xor m11 3041331479) with
    | ⟨v0, v5, v10, v15⟩ =>
    match blakeG v1 v6 v11 v12 (Nat.xor m9 1065670069) (Nat.xor m14 953160567) with
    | ⟨v1, v6, v11, v12⟩ =>
    match blakeG v2 v7 v8 v13 (Nat.xor m3 3232508343) (Nat.xor m12 57701188) with
    | ⟨v2, v7, v8, v13⟩ =>
    match blakeG v3 v4 v9 v14 (Nat.xor m13 608135816) (Nat.xor m0 3380367581) with
    | ⟨v3, v4, v9, v14⟩ =>
    ⟨v0, v1, v2, v3, v4, v5, v6, v7, v8, v9, v10, v11, v12, v13, v14, v15⟩

/-- Forces a natural number to an evaluated literal before continuing; used
so each derived quantity is computed once instead of on every use. -/
def forceNat (n : Nat) (k : Nat → α) : α :=
  match n with
  | 0 => k 0
  | m + 1 => k (Nat.add m 1)

/-- Modelled from the spec: the BLAKE-256 compression function over an
8-word chain value `h`, 16 message words `m`, and bit counter `t`:
14 rounds (permutation rows 0-9 then 0-3 again) and the xor feed-forward
finalization. -/
def blakeCompress (h m : List Nat) (t : Nat) : List Nat :=
  match h, m with
  | [h0, h1, h2, h3, h4, h5, h6, h7], [m0, m1, m2, m3, m4, m5, m6, m7, m8, m9, m10, m11, m12, m13, m14, m15] =>
    forceNat m0 fun m0 =>
    forceNat m1 fun m1 =>
    forceNat m2 fun m2 =>
    forceNat m3 fun m3 =>
    forceNat m4 fun m4 =>
    forceNat m5 fun m5 =>
    forceNat m6 fun m6 =>
    forceNat m7 fun m7 =>
    forceNat m8 fun m8 =>
    forceNat m9 fun m9 =>
    forceNat m10 fun m10 =>
    forceNat m11 fun m11 =>
    forceNat m12 fun m12 =>
    forceNat m13 fun m13 =>
    forceNat m14 fun m14 =>
    forceNat m15 fun m15 =>
    forceNat h0 fun h0 =>
    forceNat h1 fun h1 =>
    forceNat h2 fun h2 =>
    forceNat h3 fun h3 =>
    forceNat h4 fun h4 =>
    forceNat h5 fun h5 =>
    forceNat h6 fun h6 =>
    forceNat h7 fun h7 =>
    forceNat (Nat.mod t 4294967296) fun t0 =>
    forceNat (Nat.div t 4294967296) fun t1 =>
    let v : V16 := ⟨h0, h1, h2, h3, h4, h5, h6, h7,
      608135816, 2242054355, 320440878, 57701188,
      Nat.xor t0 2752067618, Nat.xor t0 698298832, Nat.xor t1 137296536, Nat.xor t1 3964562569⟩
    let v := blakeRnd0 m0 m1 m2 m3 m4 m5 m6 m7 m8 m9 m10 m11 m12 m13 m14 m15 v
    let v := blakeRnd1 m0 m1 m2 m3 m4 m5 m6 m7 m8 m9 m10 m11 m12 m13 m14 m15 v
    let v := blakeRnd2 m0 m1 m2 m3 m4 m5 m6 m7 m8 m9 m10 m11 m12 m13 m14 m15 v
    let v := blakeRnd3 m0 m1 m2 m3 m4 m5 m6 m7 m8 m9 m10 m11 m12 m13 m14 m15 v
    let v := blakeRnd4 m0 m1 m2 m3 m4 m5 m6 m7 m8 m9 m10 m11 m12 m13 m14 m15 v
    let v := blakeRnd5 m0 m1 m2 m3 m4 m5 m6 m7 m8 m9 m10 m11 m12 m13 m14 m15 v
    let v := blakeRnd6 m0 m1 m2 m3 m4 m5 m6 m7 m8 m9 m10 m11 m12 m13 m14 m15 v
    let v := blakeRnd7 m0 m1 m2 m3 m4 m5 m6 m7 m8 m9 m10 m11 m12 m13 m14 m15 v
    let v := blakeRnd8 m0 m1 m2 m3 m4 m5 m6 m7 m8 m9 m10 m11 m12 m13 m14 m15 v
    let v := blakeRnd9 m0 m1 m2 m3 m4 m5 m6 m7 m8 m9 m10 m11 m12 m13 m14 m15 v
    let v := blakeRnd0 m0 m1 m2 m3 m4 m5 m6 m7 m8 m9 m10 m11 m12 m13 m14 m15 v
    let v := blakeRnd1 m0 m1 m2 m3 m4 m5 m6 m7 m8 m9 m10 m11 m12 m13 m14 m15 v
    let v := blakeRnd2 m0 m1 m2 m3 m4 m5 m6 m7 m8 m9 m10 m11 m12 m13 m14 m15 v
    let v := blakeRnd3 m0 m1 m2 m3 m4 m5 m6 m7 m8 m9 m10 m11 m12 m13 m14 m15 v
    match v with
    | ⟨w0, w1, w2, w3, w4, w5, w6, w7, w8, w9, w10, w11, w12, w13, w14, w15⟩ =>
      [Nat.xor (Nat.xor h0 w0) w8, Nat.xor (Nat.xor h1 w1) w9, Nat.xor (Nat.xor h2 w2) w10, Nat.xor (Nat.xor h3 w3) w11, Nat.xor (Nat.xor h4 w4) w12, Nat.xor (Nat.xor h5 w5) w13, Nat.xor (Nat.xor h6 w6) w14, Nat.xor (Nat.xor h7 w7) w15]
  | _, _ => h

/-- Forces every element of a byte list to an evaluated literal. -/
def forceList : List Nat → (List Nat → α) → α
  | [], k => k []
  | n :: t, k => forceNat n fun x => forceList t fun t2 => k (x :: t2)

/-- Modelled from the spec: reads a 512-bit block value as 16 big-endian
32-bit words. -/
def blakeWordsOf (n : Nat) : List Nat :=
  [Nat.mod (Nat.shiftRight n 480) 4294967296, Nat.mod (Nat.shiftRight n 448) 4294967296,
   Nat.mod (Nat.shiftRight n 416) 4294967296, Nat.mod (Nat.shiftRight n 384) 4294967296,
   Nat.mod (Nat.shiftRight n 352) 4294967296, Nat.mod (Nat.shiftRight n 320) 4294967296,
   Nat.mod (Nat.shiftRight n 288) 4294967296, Nat.mod (Nat.shiftRight n 256) 4294967296,
   Nat.mod (Nat.shiftRight n 224) 4294967296, Nat.mod (Nat.shiftRight n 192) 4294967296,
   Nat.mod (Nat.shiftRight n 160) 4294967296, Nat.mod (Nat.shiftRight n 128) 4294967296,
   Nat.mod (Nat.shiftRight n 96) 4294967296, Nat.mod (Nat.shiftRight n 64) 4294967296,
   Nat.mod (Nat.shiftRight n 32) 4294967296, Nat.mod n 4294967296]

/-- Modelled from the spec: the block iteration of BLAKE-256 -- the padded
message, read as one big-endian value, is compressed 512-bit block by block
high to low, with the bit counter `t` of each block: the number of message
(non padding) bits hashed so far including the current block, or 0 for
blocks holding no message bits. -/
def blake256Go (msgLen done nblocks : Nat) (h : List Nat) (nval : Nat) : List Nat :=
  match nblocks with
  | 0 => h
  | k + 1 =>
    forceNat (if 64 * done < msgLen then min (8 * msgLen) (512 * (done + 1)) else 0) fun t =>
    forceNat (Nat.mod (Nat.shiftRight nval (512 * k)) (2 ^ 512)) fun block =>
    blake256Go msgLen (done + 1) k (blakeCompress h (blakeWordsOf block) t) nval

/-- Modelled from the spec: the byte length and big-endian value of the
BLAKE-256 padding for a message of `len` bytes -- a 0x80-initiated,
0x01-terminated pad followed by the 64-bit big-endian bit length, bringing
the total to a multiple of 64 bytes. -/
def blakePadVal (len : Nat) : Nat × Nat :=
  let r := len % 64
  if r = 55 then (9, 129 * 18446744073709551616 + 8 * len)
  else if r < 55 then
    (64 - r, (128 * 2 ^ (8 * (55 - r)) + 1) * 18446744073709551616 + 8 * len)
  else
    (128 - r, (128 * 2 ^ (8 * (119 - r)) + 1) * 18446744073709551616 + 8 * len)

/-- Modelled from the spec: the BLAKE-256 digest of a message given as byte
length and big-endian value, as a 256-bit value. -/
def blake256V (len mval : Nat) : Nat :=
  forceNat len fun len =>
  match blakePadVal len with
  | (padLen, padVal) =>
    forceNat (Nat.add (Nat.mul mval (2 ^ (8 * padLen))) padVal) fun nval =>
    digitsToNat 4294967296
      (blake256Go len 0 ((len + padLen) / 64) blakeIV nval)

/-- Modelled from the spec: the BLAKE-256 hash of a byte string, yielding 32
bytes. -/
def blake256 (msg : List Nat) : List Nat :=
  beBytesFixed 32 (blake256V msg.length (beNat msg))

/-- Modelled from the spec: the four checksum bytes of the checksummed text
codec -- the leading four bytes (the top 32 bits of the 256-bit digest
value) of a double application of BLAKE-256. -/
def checksum4 (bs : List Nat) : List Nat :=
  beBytesFixed 4 (Nat.div (blake256V 32 (blake256V bs.length (beNat bs))) (2 ^ 224))

/-! ### Base58 checksummed text codec

Modelled from the spec: the generic checksummed base-N text encoding
primitive (decred/base58) is an external collaborator not under src/.  It is
the modified base58 alphabet excluding 0, O, I and l, big-integer digit
conversion with one leading `1` per leading zero byte, and a 4-byte
double-BLAKE-256 checksum over a 2-byte version plus payload. -/

/-- Modelled from the spec: the modified 58-character alphabet of the codec. -/
def b58Alphabet : List Char :=
  "123456789ABCDEFGHJKLMNPQRSTUVWXYZabcdefghijkmnopqrstuvwxyz".data

/-- Character for a base58 digit value. -/
def b58CharOf (d : Nat) : Char := b58Alphabet.getD d '1'

/-- Digit value of a character, or none when outside the modified alphabet
(the six contiguous character ranges of `b58Alphabet`). -/
def b58Digit (c : Char) : Option Nat :=
  let n := c.toNat
  cond (Nat.ble 49 n && Nat.ble n 57) (some (n - 49))
  (cond (Nat.ble 65 n && Nat.ble n 72) (some (n - 56))
  (cond (Nat.ble 74 n && Nat.ble n 78) (some (n - 57))
  (cond (Nat.ble 80 n && Nat.ble n 90) (some (n - 58))
  (cond (Nat.ble 97 n && Nat.ble n 107) (some (n - 64))
  (cond (Nat.ble 109 n && Nat.ble n 122) (some (n - 65))
  none)))))

/-- Accumulated base58 value of a character list; none as soon as any
character is outside the modified alphabet. -/
def b58ValAux (acc : Nat) : List Char → Option Nat
  | [] => some acc
  | c :: cs =>
    match b58Digit c with
    | none => none
    | some d => b58ValAux (acc * 58 + d) cs

/-- Value denoted by a base58 string, or none on any invalid character. -/
def b58ValOf (cs : List Char) : Option Nat := b58ValAux 0 cs

/-- Modelled from the spec: base58 encoding of a byte string (leading zero
bytes become leading `1` characters). -/
def b58Encode (bs : List Nat) : String :=
  let digits := natDigitsBEF (2 * bs.length + 2) 58 (beNat bs)
  String.mk (List.replicate (countLeading 0 bs) '1' ++ digits.map b58CharOf)

/-- Error kinds of the external checksummed codec: text not decodable at all
versus a checksum mismatch. -/
inductive B58Error
  | invalidFormat
  | badChecksum
deriving DecidableEq, Repr

/-- Modelled from the spec: checksummed encoding of a 2-byte version prefix
and payload. -/
def b58CheckEncode (verID : Nat × Nat) (payload : List Nat) : String :=
  let body := verID.1 :: verID.2 :: payload
  b58Encode (body ++ checksum4 body)

/-- Modelled from the spec: checksummed decoding, yielding the 2-byte version
prefix and the payload, distinguishing malformed text from a checksum
mismatch.  The decoded byte string of the external codec is the fixed-width
rendering of the denoted value at one byte per leading `1` plus the minimal
length; the version, payload and trailing checksum bytes are read off that
rendering. -/
def b58CheckDecode (s : String) : Except B58Error ((Nat × Nat) × List Nat) :=
  match b58ValOf s.data with
  | none => .error .invalidFormat
  | some n =>
    forceNat n fun n =>
    let len := countLeading '1' s.data + natLen256 s.data.length n
    if len < 6 then .error .invalidFormat
    else
      forceList (beBytesFixed (len - 4) (n / 4294967296)) fun body =>
      if checksum4 body = beBytesFixed 4 (n % 4294967296) then
        match body with
        | p0 :: p1 :: payload => .ok ((p0, p1), payload)
        | _ => .error .invalidFormat
      else .error .badChecksum

/-! ### secp256k1 public key parsing

Modelled from the spec: the external secp256k1 key-parsing primitive
(dcrec/secp256k1 ParsePubKey) is not under src/.  It parses 33-byte
compressed (0x02/0x03), 65-byte uncompressed (0x04) and 65-byte hybrid
(0x06/0x07) encodings of points on y^2 = x^3 + 7 over the secp256k1 field,
and yields none for anything else. -/

/-- Whether every element of a list is a byte (below 256); Go byte slices
carry this at the type level, the embedding checks it explicitly. -/
def allBytes (l : List Nat) : Bool := l.all fun b => Nat.ble b 255

/-- The secp256k1 field prime. -/
def secpP : Nat := 2 ^ 256 - 2 ^ 32 - 977

/-- An affine secp256k1 point (a parsed public key). -/
structure SecpPoint where
  x : Nat
  y : Nat
deriving DecidableEq, Repr

/-- Modelled from the spec: parse of a serialized secp256k1 public key.
Accepts a compressed key when the x coordinate is in range and x^3 + 7 is a
square (decompressing y with the parity the format byte requires), and an
uncompressed or hybrid key when the full coordinates satisfy the curve
equation (hybrid formats additionally pin the parity of y). -/
def secpParsePubKey (pk : List Nat) : Option SecpPoint :=
  match pk with
  | [] => none
  | b :: rest =>
    if (b = 2 || b = 3) && rest.length == 32 && allBytes rest then
      let x := beNat rest
      if x < secpP then
        let ySq := (x * x % secpP * x + 7) % secpP
        let y0 := powModF 260 ySq ((secpP + 1) / 4) secpP
        if y0 * y0 % secpP = ySq then
          let wantOdd := b = 3
          some ⟨x, if (y0 % 2 = 1) = wantOdd then y0 else (secpP - y0) % secpP⟩
        else none
      else none
    else if (b = 4 || b = 6 || b = 7) && rest.length == 64 && allBytes rest then
      let x := beNat (rest.take 32)
      let y := beNat (rest.drop 32)
      if x < secpP ∧ y < secpP ∧ y * y % secpP = (x * x % secpP * x + 7) % secpP ∧
          (b = 4 ∨ (b = 6 ∧ y % 2 = 0) ∨ (b = 7 ∧ y % 2 = 1)) then
        some ⟨x, y⟩
      else none
    else none

/-- Modelled from the spec: the canonical 33-byte compressed serialization of
a parsed secp256k1 public key (0x02/0x03 parity byte then big-endian x). -/
def secpSerializeCompressed (p : SecpPoint) : List Nat :=
  (if p.y % 2 = 0 then 2 else 3) :: beBytesFixed 32 p.x

/-! ### Ed25519 public key parsing

Modelled from the spec: the external Ed25519 key-parsing primitive
(dcrec/edwards ParsePubKey) is not under src/.  It decompresses a 32-byte
little-endian encoding of a point on the twisted Edwards curve
-x^2 + y^2 = 1 + d x^2 y^2 over GF(2^255 - 19). -/

/-- The Ed25519 field prime. -/
def edP : Nat := 2 ^ 255 - 19

/-- The Ed25519 curve constant d = -121665/121666. -/
def edD : Nat := ((edP - 121665) * powModF 300 121666 (edP - 2) edP) % edP

/-- A square root of -1 in the Ed25519 field. -/
def edSqrtM1 : Nat := powModF 300 2 ((edP - 1) / 4) edP

/-- An affine Ed25519 point (a parsed public key). -/
structure EdPoint where
  x : Nat
  y : Nat
deriving DecidableEq, Repr

/-- Modelled from the spec: parse of a serialized Ed25519 public key by RFC
8032 point decompression: recover x from y via exponentiation, correct by
sqrt(-1) when needed, reject when no square root exists. -/
def edParsePubKey (pk : List Nat) : Option EdPoint :=
  if pk.length = 32 ∧ allBytes pk then
    let le := leNat pk
    let sign := le / 2 ^ 255
    let y := le % 2 ^ 255
    if y < edP then
      let ySq := y * y % edP
      let u := (ySq + edP - 1) % edP
      let v := (edD * ySq + 1) % edP
      let cand := u * powModF 300 v 3 edP % edP *
        powModF 300 (u * powModF 300 v 7 edP % edP) ((edP - 5) / 8) edP % edP
      let vx2 := v * (cand * cand % edP) % edP
      let x0 :=
        if vx2 = u then some cand
        else if vx2 = (edP - u) % edP then some (cand * edSqrtM1 % edP)
        else none
      match x0 with
      | none => none
      | some x0 =>
        if x0 = 0 ∧ sign = 1 then none
        else some ⟨if x0 % 2 = sign then x0 else edP - x0, y⟩
    else none
  else none

/-- Modelled from the spec: the canonical 32-byte little-endian serialization
of a parsed Ed25519 public key (y with the sign of x in the top bit). -/
def edSerialize (p : EdPoint) : List Nat :=
  leBytesFixed 32 (p.y + p.x % 2 * 2 ^ 255)

/-! ### The stdaddr address variant model and decode dispatcher

Modelled from the spec: the stdaddr implementation (address variants, raw and
typed constructors, decode dispatcher, error taxonomy) is not under src/ --
only its test suite is.  Every behavior below follows sections 3, 4.2, 4.4
and 7 of the specification and is pinned by the vectors in address_test.go. -/

/-- Modelled from the spec: the stdaddr error taxonomy (section 7).  The
hash-length failure of the 20-byte payload constructors is not given a name
by the spec; it is `invalidHashLen` here. -/
inductive AddrError
  | unsupportedScriptVersion
  | invalidPubKeyFormat
  | invalidPubKey
  | badAddressChecksum
  | unsupportedAddress
  | malformedAddress
  | malformedAddressData
  | invalidHashLen
deriving DecidableEq, Repr

/-- Network parameter capability: the five 2-byte magic prefixes of the
version 0 address kinds, as in the AddressParams interface mocked by
address_test.go. -/
structure AddressParams where
  pubKeyID : Nat × Nat
  pkhEcdsaID : Nat × Nat
  pkhEd25519ID : Nat × Nat
  pkhSchnorrID : Nat × Nat
  scriptHashID : Nat × Nat
deriving DecidableEq, Repr

/-- The mock mainnet parameters of address_test.go (Decred mainnet). -/
def mockMainNetParams : AddressParams :=
  { pubKeyID := (0x13, 0x86), pkhEcdsaID := (0x07, 0x3f), pkhEd25519ID := (0x07, 0x1f),
    pkhSchnorrID := (0x07, 0x01), scriptHashID := (0x07, 0x1a) }

/-- The mock testnet parameters of address_test.go (Decred testnet). -/
def mockTestNetParams : AddressParams :=
  { pubKeyID := (0x28, 0xf7), pkhEcdsaID := (0x0f, 0x21), pkhEd25519ID := (0x0f, 0x01),
    pkhSchnorrID := (0x0e, 0xe3), scriptHashID := (0x0e, 0xfc) }

/-- The mock regnet parameters of address_test.go (Decred regnet). -/
def mockRegNetParams : AddressParams :=
  { pubKeyID := (0x25, 0xe5), pkhEcdsaID := (0x0e, 0x00), pkhEd25519ID := (0x0d, 0xe0),
    pkhSchnorrID := (0x0d, 0xc2), scriptHashID := (0x0d, 0xdb) }

/-- Modelled from the spec: the closed set of version 0 address variants
(section 3).  Each value stores its validated payload and the 2-byte magic
derived from the network parameters at construction time. -/
inductive AddressV0
  | pubKeyEcdsaSecp256k1 (pk : List Nat) (addrID : Nat × Nat)
  | pubKeyEd25519 (pk : List Nat) (addrID : Nat × Nat)
  | pubKeySchnorrSecp256k1 (pk : List Nat) (addrID : Nat × Nat)
  | pubKeyHashEcdsaSecp256k1 (h : List Nat) (addrID : Nat × Nat)
  | pubKeyHashEd25519 (h : List Nat) (addrID : Nat × Nat)
  | pubKeyHashSchnorrSecp256k1 (h : List Nat) (addrID : Nat × Nat)
  | scriptHash (h : List Nat) (addrID : Nat × Nat)
deriving DecidableEq, Repr

/-- Modelled from the spec: the compact payload rendering of a serialized
secp256k1 public key inside a version 0 pay-to-pubkey address: a signature
suite identifier byte whose top bit records an odd y coordinate, followed by
the 32 x-coordinate bytes (pinned by the decoded forms of the test vector
addresses). -/
def compactSecpPubKey (suite : Nat) (pk : List Nat) : List Nat :=
  (suite + if pk.headD 0 = 3 then 128 else 0) :: pk.drop 1

/-- Modelled from the spec: text rendering of an address -- the stored magic
prefix and payload through the checksummed codec (section 4.2), with
pay-to-pubkey payloads in the compact suite-tagged form. -/
def AddressV0.address : AddressV0 → String
  | .pubKeyEcdsaSecp256k1 pk addrID => b58CheckEncode addrID (compactSecpPubKey 0 pk)
  | .pubKeyEd25519 pk addrID => b58CheckEncode addrID (1 :: pk)
  | .pubKeySchnorrSecp256k1 pk addrID => b58CheckEncode addrID (compactSecpPubKey 2 pk)
  | .pubKeyHashEcdsaSecp256k1 h addrID => b58CheckEncode addrID h
  | .pubKeyHashEd25519 h addrID => b58CheckEncode addrID h
  | .pubKeyHashSchnorrSecp256k1 h addrID => b58CheckEncode addrID h
  | .scriptHash h addrID => b58CheckEncode addrID h

/-- Modelled from the spec: the version 0 payment script templates of
section 4.3, pinned by the expected scripts of address_test.go.  Returns the
script version paired with the script bytes. -/
def AddressV0.paymentScript : AddressV0 → Nat × List Nat
  | .pubKeyEcdsaSecp256k1 pk _ => (0, 0x21 :: pk ++ [0xac])
  | .pubKeyEd25519 pk _ => (0, 0x20 :: pk ++ [0x51, 0xbe])
  | .pubKeySchnorrSecp256k1 pk _ => (0, 0x21 :: pk ++ [0xac])
  | .pubKeyHashEcdsaSecp256k1 h _ => (0, [0x76, 0xa9, 0x14] ++ h ++ [0x88, 0xac])
  | .pubKeyHashEd25519 h _ => (0, [0x76, 0xa9, 0x14] ++ h ++ [0x88, 0x51, 0xbe])
  | .pubKeyHashSchnorrSecp256k1 h _ => (0, [0x76, 0xa9, 0x14] ++ h ++ [0x88, 0x52, 0xbe])
  | .scriptHash h _ => (0, [0xa9, 0x14] ++ h ++ [0x87])

/-- Modelled from the spec: whether the leading byte of a serialized
secp256k1 key names an encoding other than the single accepted compressed
one (0x04 uncompressed, 0x06/0x07 hybrid); the check inspects only the
leading type byte and delegates length validity to the key parser. -/
def secpRejectedFormat (pk : List Nat) : Bool :=
  match pk with
  | [] => false
  | b :: _ => b = 4 || b = 6 || b = 7

/-- Modelled from the spec: raw constructor of a version 0 ECDSA/secp256k1
pay-to-pubkey address (section 4.2): version gate, canonical-format gate on
the leading byte, then delegation to the external key parser. -/
def newAddressPubKeyEcdsaSecp256k1Raw (version : Nat) (pk : List Nat)
    (params : AddressParams) : Except AddrError AddressV0 :=
  if version ≠ 0 then .error .unsupportedScriptVersion
  else if secpRejectedFormat pk then .error .invalidPubKeyFormat
  else
    match secpParsePubKey pk with
    | none => .error .invalidPubKey
    | some _ => .ok (.pubKeyEcdsaSecp256k1 pk params.pubKeyID)

/-- Modelled from the spec: raw constructor of a version 0 Schnorr/secp256k1
pay-to-pubkey address; same gates as the ECDSA variant. -/
def newAddressPubKeySchnorrSecp256k1Raw (version : Nat) (pk : List Nat)
    (params : AddressParams) : Except AddrError AddressV0 :=
  if version ≠ 0 then .error .unsupportedScriptVersion
  else if secpRejectedFormat pk then .error .invalidPubKeyFormat
  else
    match secpParsePubKey pk with
    | none => .error .invalidPubKey
    | some _ => .ok (.pubKeySchnorrSecp256k1 pk params.pubKeyID)

/-- Modelled from the spec: raw constructor of a version 0 Ed25519
pay-to-pubkey address: version gate then delegation to the external parser. -/
def newAddressPubKeyEd25519Raw (version : Nat) (pk : List Nat)
    (params : AddressParams) : Except AddrError AddressV0 :=
  if version ≠ 0 then .error .unsupportedScriptVersion
  else
    match edParsePubKey pk with
    | none => .error .invalidPubKey
    | some _ => .ok (.pubKeyEd25519 pk params.pubKeyID)

/-- Modelled from the spec: typed constructor over an already-parsed
secp256k1 key; re-derives the canonical compressed serialization and
forwards to the raw constructor. -/
def newAddressPubKeyEcdsaSecp256k1 (version : Nat) (p : SecpPoint)
    (params : AddressParams) : Except AddrError AddressV0 :=
  newAddressPubKeyEcdsaSecp256k1Raw version (secpSerializeCompressed p) params

/-- Modelled from the spec: typed constructor over an already-parsed
Schnorr/secp256k1 key; forwards the compressed serialization. -/
def newAddressPubKeySchnorrSecp256k1 (version : Nat) (p : SecpPoint)
    (params : AddressParams) : Except AddrError AddressV0 :=
  newAddressPubKeySchnorrSecp256k1Raw version (secpSerializeCompressed p) params

/-- Modelled from the spec: typed constructor over an already-parsed Ed25519
key; forwards the canonical serialization. -/
def newAddressPubKeyEd25519 (version : Nat) (p : EdPoint)
    (params : AddressParams) : Except AddrError AddressV0 :=
  newAddressPubKeyEd25519Raw version (edSerialize p) params

/-- Modelled from the spec: constructor of a version 0 ECDSA/secp256k1
pay-to-pubkey-hash address from a 20-byte hash. -/
def newAddressPubKeyHashEcdsaSecp256k1 (version : Nat) (h : List Nat)
    (params : AddressParams) : Except AddrError AddressV0 :=
  if version ≠ 0 then .error .unsupportedScriptVersion
  else if h.length ≠ 20 ∨ ¬allBytes h then .error .invalidHashLen
  else .ok (.pubKeyHashEcdsaSecp256k1 h params.pkhEcdsaID)

/-- Modelled from the spec: constructor of a version 0 Ed25519
pay-to-pubkey-hash address from a 20-byte hash. -/
def newAddressPubKeyHashEd25519 (version : Nat) (h : List Nat)
    (params : AddressParams) : Except AddrError AddressV0 :=
  if version ≠ 0 then .error .unsupportedScriptVersion
  else if h.length ≠ 20 ∨ ¬allBytes h then .error .invalidHashLen
  else .ok (.pubKeyHashEd25519 h params.pkhEd25519ID)

/-- Modelled from the spec: constructor of a version 0 Schnorr/secp256k1
pay-to-pubkey-hash address from a 20-byte hash. -/
def newAddressPubKeyHashSchnorrSecp256k1 (version : Nat) (h : List Nat)
    (params : AddressParams) : Except AddrError AddressV0 :=
  if version ≠ 0 then .error .unsupportedScriptVersion
  else if h.length ≠ 20 ∨ ¬allBytes h then .error .invalidHashLen
  else .ok (.pubKeyHashSchnorrSecp256k1 h params.pkhSchnorrID)

/-- Modelled from the spec: constructor of a version 0 pay-to-script-hash
address from a 20-byte script hash. -/
def newAddressScriptHashFromHash (version : Nat) (h : List Nat)
    (params : AddressParams) : Except AddrError AddressV0 :=
  if version ≠ 0 then .error .unsupportedScriptVersion
  else if h.length ≠ 20 ∨ ¬allBytes h then .error .invalidHashLen
  else .ok (.scriptHash h params.scriptHashID)

/-- Decidable equality for Except results, used to evaluate the model on
concrete inputs. -/
instance exceptDecEq {ε α : Type} [DecidableEq ε] [DecidableEq α] :
    DecidableEq (Except ε α) := fun x y =>
  match x, y with
  | .ok a, .ok b =>
    if h : a = b then isTrue (by rw [h]) else isFalse (by intro hh; cases hh; exact h rfl)
  | .error a, .error b =>
    if h : a = b then isTrue (by rw [h]) else isFalse (by intro hh; cases hh; exact h rfl)
  | .ok _, .error _ => isFalse (by intro hh; cases hh)
  | .error _, .ok _ => isFalse (by intro hh; cases hh)

/-- Maps any constructor failure inside the version 0 decoder to the more
granular malformed-data verdict (section 4.4, step 4). -/
def wrapV0 (r : Except AddrError AddressV0) : Except AddrError AddressV0 :=
  match r with
  | .ok a => .ok a
  | .error _ => .error .malformedAddressData

/-- Modelled from the spec: the version-specific decoder `DecodeAddressV0`
(section 4.4): one checksummed decode distinguishing malformed text from a
checksum mismatch, exact dispatch of the 2-byte prefix over every kind the
parameters expose, suite-byte dispatch of compact pay-to-pubkey payloads,
and the granular malformed-data verdict for payloads invalid for the matched
kind. -/
def decodeAddressV0 (s : String) (params : AddressParams) :
    Except AddrError AddressV0 :=
  match b58CheckDecode s with
  | .error .badChecksum => .error .badAddressChecksum
  | .error .invalidFormat => .error .malformedAddress
  | .ok (addrID, payload) =>
    if addrID = params.scriptHashID then
      wrapV0 (newAddressScriptHashFromHash 0 payload params)
    else if addrID = params.pkhEcdsaID then
      wrapV0 (newAddressPubKeyHashEcdsaSecp256k1 0 payload params)
    else if addrID = params.pkhEd25519ID then
      wrapV0 (newAddressPubKeyHashEd25519 0 payload params)
    else if addrID = params.pkhSchnorrID then
      wrapV0 (newAddressPubKeyHashSchnorrSecp256k1 0 payload params)
    else if addrID = params.pubKeyID then
      match payload with
      | [] => .error .malformedAddressData
      | b0 :: rest =>
        let oddByte := if 128 ≤ b0 then 3 else 2
        if b0 % 128 = 0 then
          wrapV0 (newAddressPubKeyEcdsaSecp256k1Raw 0 (oddByte :: rest) params)
        else if b0 % 128 = 1 then
          wrapV0 (newAddressPubKeyEd25519Raw 0 rest params)
        else if b0 % 128 = 2 then
          wrapV0 (newAddressPubKeySchnorrSecp256k1Raw 0 (oddByte :: rest) params)
        else .error .malformedAddressData
    else .error .unsupportedAddress

/-- Modelled from the spec: the pre-filter of the generic decoder -- true
exactly when every character of the string belongs to the modified base58
alphabet the text codec uses. -/
def probablyV0Base58Addr (s : String) : Bool :=
  s.data.all fun c => (b58Digit c).isSome

/-- Modelled from the spec: the generic decoder `DecodeAddress` (section
4.4): pre-filter, then the version 0 decoder, propagating a checksum
mismatch and the no-prefix-match verdict while collapsing the detailed
malformed verdicts into the one generic unsupported-address error. -/
def decodeAddress (s : String) (params : AddressParams) :
    Except AddrError AddressV0 :=
  if probablyV0Base58Addr s then
    match decodeAddressV0 s params with
    | .ok a => .ok a
    | .error e =>
      if e = .badAddressChecksum ∨ e = .unsupportedAddress then .error e
      else .error .unsupportedAddress
  else .error .unsupportedAddress

/-- All single-character mutations of a string over the modified base58
alphabet: every string obtained by replacing one character with a different
alphabet character. -/
def mutationsOf (s : String) : List String :=
  (List.range s.data.length).flatMap fun i =>
    (b58Alphabet.filter (fun c => c ≠ s.data.getD i ' ')).map fun c =>
      String.mk (s.data.take i ++ c :: s.data.drop (i + 1))

/-- Modelled from the source (src/hash160.go): calcHash writes `buf` to the
given hash and returns its digest; the digest state is abstracted to a
function from byte strings to digests since the primitives are external. -/
def calcHash (buf : List Nat) (hasher : List Nat → List Nat) : List Nat := hasher buf

/-- Hash160 calculates the hash ripemd160(sha256(b)) (src/hash160.go),
parameterized over the two external digest primitives. -/
def Hash160 (sha256 ripemd160 : List Nat → List Nat) (buf : List Nat) : List Nat :=
  calcHash (calcHash buf sha256) ripemd160

/-- The 65-byte uncompressed (0x04) secp256k1 test key of address_test.go. -/
def uncompressedTestKey : List Nat := [4, 100, 196, 70, 83, 214, 86, 126, 255, 87, 83, 197, 210, 74, 104, 45, 220, 43, 44, 173, 254, 27, 12, 100, 51, 177, 99, 116, 218, 206, 103, 120, 240, 184, 124, 164, 39, 155, 86, 93, 33, 48, 206, 89, 247, 91, 251, 178, 184, 141, 167, 148, 20, 61, 124, 253, 62, 128, 128, 138, 31, 163, 32, 57, 4]

/-- The hybrid (0x06) secp256k1 test key of address_test.go. -/
def hybridTestKey6 : List Nat := [6, 100, 196, 70, 83, 214, 86, 126, 255, 87, 83, 197, 210, 74, 104, 45, 220, 43, 44, 173, 254, 27, 12, 100, 51, 177, 99, 116, 218, 206, 103, 120, 240, 184, 124, 164, 39, 155, 86, 93, 33, 48, 206, 89, 247, 91, 251, 178, 184, 141, 167, 148, 20, 61, 124, 253, 62, 128, 128, 138, 31, 163, 32, 57, 4]

/-- The hybrid (0x07) secp256k1 test key of address_test.go. -/
def hybridTestKey7 : List Nat := [7, 52, 141, 138, 235, 66, 83, 202, 82, 69, 111, 229, 218, 148, 171, 18, 99, 191, 238, 22, 187, 129, 146, 73, 127, 102, 99, 137, 202, 150, 79, 132, 121, 131, 117, 18, 157, 121, 88, 132, 59, 20, 37, 139, 144, 93, 201, 79, 174, 211, 36, 221, 138, 157, 103, 255, 172, 140, 192, 168, 91, 232, 75, 172, 93]

/-- The compressed (0x02) form of the uncompressed test key. -/
def compressed64c4 : List Nat := [2, 100, 196, 70, 83, 214, 86, 126, 255, 87, 83, 197, 210, 74, 104, 45, 220, 43, 44, 173, 254, 27, 12, 100, 51, 177, 99, 116, 218, 206, 103, 120, 240]

/-- The compressed (0x02) secp256k1 test key 028f53... of address_test.go. -/
def compressedTestKey : List Nat := [2, 143, 83, 131, 139, 118, 57, 86, 63, 39, 201, 72, 69, 84, 154, 65, 229, 20, 107, 205, 82, 231, 254, 240, 234, 109, 161, 67, 160, 43, 15, 226, 237]

/-- The Ed25519 test key cecc15... of address_test.go. -/
def ed25519TestKey : List Nat := [206, 204, 21, 7, 220, 29, 221, 114, 149, 149, 28, 41, 8, 136, 240, 149, 173, 185, 4, 77, 27, 115, 214, 150, 230, 223, 6, 93, 104, 59, 212, 252]

/-! ### Basic lemmas about the evaluation helpers -/

/-- Forcing a natural number is the identity. -/
@[simp] theorem forceNat_eq (n : Nat) (k : Nat → α) : forceNat n k = k n := by
  cases n with
  | zero => rfl
  | succ m => rfl

/-- Forcing a byte list is the identity. -/
@[simp] theorem forceList_eq (l : List Nat) (k : List Nat → α) : forceList l k = k l := by
  induction l generalizing k with
  | nil => rfl
  | cons n t ih => simp [forceList, ih]

/-! ### Claim theorems: C9, C7, C10 -/

/-- C9: the digest chain Hash160 of src/hash160.go is a pure total function
returning exactly ripemd160(sha256(b)) for every byte string b; whenever the
external ripemd160 primitive returns 20-byte digests, so does Hash160, with
no failure mode, including on empty input. -/
theorem hash160_digest_chain (sha256 ripemd160 : List Nat → List Nat)
    (h20 : ∀ x, (ripemd160 x).length = 20) (b : List Nat) :
    Hash160 sha256 ripemd160 b = ripemd160 (sha256 b) ∧
      (Hash160 sha256 ripemd160 b).length = 20 :=
  ⟨rfl, h20 (sha256 b)⟩

/-- Witness for C9 at concrete digest functions and the empty input. -/
theorem hash160_digest_chain_witness :
    Hash160 (fun x => x) (fun _ => List.replicate 20 1) [] =
      (fun _ : List Nat => List.replicate 20 1) [] ∧
      (Hash160 (fun x => x) (fun _ => List.replicate 20 1) []).length = 20 :=
  hash160_digest_chain (fun x => x) (fun _ => List.replicate 20 1)
    (fun _ => by simp) []

/-- C7: every raw constructor and every typed constructor called with a
script version other than 0 (such as 9999) fails with the
unsupported-script-version error regardless of the supplied payload. -/
theorem constructors_gate_script_version (v : Nat) (hv : v ≠ 0) :
    (∀ pk params, newAddressPubKeyEcdsaSecp256k1Raw v pk params =
      .error .unsupportedScriptVersion) ∧
    (∀ pk params, newAddressPubKeySchnorrSecp256k1Raw v pk params =
      .error .unsupportedScriptVersion) ∧
    (∀ pk params, newAddressPubKeyEd25519Raw v pk params =
      .error .unsupportedScriptVersion) ∧
    (∀ p params, newAddressPubKeyEcdsaSecp256k1 v p params =
      .error .unsupportedScriptVersion) ∧
    (∀ p params, newAddressPubKeySchnorrSecp256k1 v p params =
      .error .unsupportedScriptVersion) ∧
    (∀ p params, newAddressPubKeyEd25519 v p params =
      .error .unsupportedScriptVersion) ∧
    (∀ h params, newAddressPubKeyHashEcdsaSecp256k1 v h params =
      .error .unsupportedScriptVersion) ∧
    (∀ h params, newAddressPubKeyHashEd25519 v h params =
      .error .unsupportedScriptVersion) ∧
    (∀ h params, newAddressPubKeyHashSchnorrSecp256k1 v h params =
      .error .unsupportedScriptVersion) ∧
    (∀ h params, newAddressScriptHashFromHash v h params =
      .error .unsupportedScriptVersion) := by
  refine ⟨fun pk params => ?_, fun pk params => ?_, fun pk params => ?_,
    fun p params => ?_, fun p params => ?_, fun p params => ?_,
    fun h params => ?_, fun h params => ?_, fun h params => ?_, fun h params => ?_⟩ <;>
    simp [newAddressPubKeyEcdsaSecp256k1Raw, newAddressPubKeySchnorrSecp256k1Raw,
      newAddressPubKeyEd25519Raw, newAddressPubKeyEcdsaSecp256k1,
      newAddressPubKeySchnorrSecp256k1, newAddressPubKeyEd25519,
      newAddressPubKeyHashEcdsaSecp256k1, newAddressPubKeyHashEd25519,
      newAddressPubKeyHashSchnorrSecp256k1, newAddressScriptHashFromHash, hv]

/-- Witness for C7 at script version 9999 on concrete payloads, parsed keys
and network parameters. -/
theorem constructors_gate_script_version_witness :
    newAddressPubKeyEcdsaSecp256k1Raw 9999 [] mockMainNetParams =
      .error .unsupportedScriptVersion ∧
    newAddressPubKeySchnorrSecp256k1Raw 9999 [] mockMainNetParams =
      .error .unsupportedScriptVersion ∧
    newAddressPubKeyEd25519Raw 9999 [] mockMainNetParams =
      .error .unsupportedScriptVersion ∧
    newAddressPubKeyEcdsaSecp256k1 9999 ⟨1, 2⟩ mockMainNetParams =
      .error .unsupportedScriptVersion ∧
    newAddressPubKeySchnorrSecp256k1 9999 ⟨1, 2⟩ mockMainNetParams =
      .error .unsupportedScriptVersion ∧
    newAddressPubKeyEd25519 9999 ⟨1, 2⟩ mockMainNetParams =
      .error .unsupportedScriptVersion ∧
    newAddressPubKeyHashEcdsaSecp256k1 9999 [] mockMainNetParams =
      .error .unsupportedScriptVersion ∧
    newAddressPubKeyHashEd25519 9999 [] mockMainNetParams =
      .error .unsupportedScriptVersion ∧
    newAddressPubKeyHashSchnorrSecp256k1 9999 [] mockMainNetParams =
      .error .unsupportedScriptVersion ∧
    newAddressScriptHashFromHash 9999 [] mockMainNetParams =
      .error .unsupportedScriptVersion := by
  have T := constructors_gate_script_version 9999 (by decide)
  exact ⟨T.1 [] _, T.2.1 [] _, T.2.2.1 [] _, T.2.2.2.1 ⟨1, 2⟩ _,
    T.2.2.2.2.1 ⟨1, 2⟩ _, T.2.2.2.2.2.1 ⟨1, 2⟩ _, T.2.2.2.2.2.2.1 [] _,
    T.2.2.2.2.2.2.2.1 [] _, T.2.2.2.2.2.2.2.2.1 [] _, T.2.2.2.2.2.2.2.2.2 [] _⟩

/-- C10: wrong-length public keys are rejected as invalid keys rather than
invalid formats: the ECDSA/secp256k1 raw constructor on any 32-byte key with
leading byte 0x02 fails with invalid-pub-key (the format gate inspects only
the leading type byte, leaving length validity to the key parser), and the
Ed25519 raw constructor on the empty (nil) key also fails with
invalid-pub-key rather than a length-specific error. -/
theorem wrong_length_pubkey_is_invalid_pubkey (pk : List Nat)
    (hlen : pk.length = 32) (hhead : pk.headD 0 = 2) (params : AddressParams) :
    newAddressPubKeyEcdsaSecp256k1Raw 0 pk params = .error .invalidPubKey ∧
    newAddressPubKeyEd25519Raw 0 [] params = .error .invalidPubKey := by
  constructor
  · cases pk with
    | nil => simp at hlen
    | cons b rest =>
      simp only [List.headD_cons] at hhead
      subst hhead
      have hr : rest.length = 31 := by simpa using hlen
      simp [newAddressPubKeyEcdsaSecp256k1Raw, secpRejectedFormat, secpParsePubKey, hr]
  · simp [newAddressPubKeyEd25519Raw, edParsePubKey]

/-- Witness for C10 at the truncated 32-byte test key of address_test.go and
the mainnet mock parameters. -/
theorem wrong_length_pubkey_is_invalid_pubkey_witness :
    newAddressPubKeyEcdsaSecp256k1Raw 0
        [0x02, 0x8f, 0x53, 0x83, 0x8b, 0x76, 0x39, 0x56, 0x3f, 0x27, 0xc9, 0x48,
         0x45, 0x54, 0x9a, 0x41, 0xe5, 0x14, 0x6b, 0xcd, 0x52, 0xe7, 0xfe, 0xf0,
         0xea, 0x6d, 0xa1, 0x43, 0xa0, 0x2b, 0x0f, 0xe2] mockMainNetParams =
      .error .invalidPubKey ∧
    newAddressPubKeyEd25519Raw 0 [] mockMainNetParams = .error .invalidPubKey :=
  wrong_length_pubkey_is_invalid_pubkey _ (by decide) (by decide) mockMainNetParams

/-- C2: for every input whose payload is malformed for the matched kind --
that is, whenever the version 0 decoder reports malformed-address-data --
the generic decoder reports the generic unsupported-address error on the
same (text, params) input; and for every text that is not validly formed
checksummed base58 at all, the version 0 decoder reports malformed-address
while the generic decoder reports unsupported-address.  Pinned at the
prefix-with-no-key-data text, the uncompressed-key encoding, the truncated
secp256k1 and Ed25519 key encodings, and the letter-l text. -/
theorem detailed_vs_generic_decode :
    (∀ s params, decodeAddressV0 s params = .error .malformedAddressData →
      decodeAddress s params = .error .unsupportedAddress) ∧
    (∀ s params, b58CheckDecode s = .error .invalidFormat →
      decodeAddressV0 s params = .error .malformedAddress ∧
      decodeAddress s params = .error .unsupportedAddress) ∧
    decodeAddress "Aiz5jz1s" mockMainNetParams = .error .unsupportedAddress ∧
    decodeAddressV0 "Aiz5jz1s" mockMainNetParams = .error .malformedAddressData ∧
    decodeAddress "HiQeNVx8PNYP8ysyunUoicyNdfRUrEu1kzPE6v5gECBHBYgDzXCg8BsDGjmaHCpV97ytaQGHz5XDMJgJVHjv9YeSXWkHfwmBJj"
      mockMainNetParams = .error .unsupportedAddress ∧
    decodeAddressV0 "HiQeNVx8PNYP8ysyunUoicyNdfRUrEu1kzPE6v5gECBHBYgDzXCg8BsDGjmaHCpV97ytaQGHz5XDMJgJVHjv9YeSXWkHfwmBJj"
      mockMainNetParams = .error .malformedAddressData ∧
    decodeAddress "3tWTcxjUnAKTzHh8pHPYpSsUKVbTvziNGHtbBFQkY12khQWuW83p"
      mockMainNetParams = .error .unsupportedAddress ∧
    decodeAddressV0 "3tWTcxjUnAKTzHh8pHPYpSsUKVbTvziNGHtbBFQkY12khQWuW83p"
      mockMainNetParams = .error .malformedAddressData ∧
    decodeAddressV0 "3tWUQtEa3P4SDQwjER81wkTxe4kiYLgNAso3pt2X5k3NFHRVQeNv"
      mockMainNetParams = .error .malformedAddressData ∧
    decodeAddressV0 "DsUZxxoHlSty8DCfwfartwTYbuhmVct7tJu" mockMainNetParams =
      .error .malformedAddress ∧
    decodeAddress "DsUZxxoHlSty8DCfwfartwTYbuhmVct7tJu" mockMainNetParams =
      .error .unsupportedAddress := by
  refine ⟨?_, ?_, by decide, by decide, by decide, by decide, by decide,
    by decide, by decide, by decide, by decide⟩
  · intro s params h
    unfold decodeAddress
    by_cases hp : probablyV0Base58Addr s = true
    · rw [if_pos hp, h]
      decide
    · rw [if_neg hp]
  · intro s params h
    have hv0 : decodeAddressV0 s params = .error .malformedAddress := by
      unfold decodeAddressV0
      rw [h]
    refine ⟨hv0, ?_⟩
    unfold decodeAddress
    by_cases hp : probablyV0Base58Addr s = true
    · rw [if_pos hp, hv0]
      decide
    · rw [if_neg hp]

/-- Witness for C2 at the prefix-with-no-key-data text and the letter-l
text against mainnet parameters. -/
theorem detailed_vs_generic_decode_witness :
    decodeAddress "Aiz5jz1s" mockMainNetParams = .error .unsupportedAddress ∧
    decodeAddressV0 "DsUZxxoHlSty8DCfwfartwTYbuhmVct7tJu" mockMainNetParams
        = .error .malformedAddress ∧
    decodeAddress "DsUZxxoHlSty8DCfwfartwTYbuhmVct7tJu" mockMainNetParams
        = .error .unsupportedAddress :=
  ⟨detailed_vs_generic_decode.1 "Aiz5jz1s" mockMainNetParams (by decide),
   (detailed_vs_generic_decode.2.1 "DsUZxxoHlSty8DCfwfartwTYbuhmVct7tJu"
      mockMainNetParams (by decide)).1,
   (detailed_vs_generic_decode.2.1 "DsUZxxoHlSty8DCfwfartwTYbuhmVct7tJu"
      mockMainNetParams (by decide)).2⟩

/-- C3: the raw ECDSA/secp256k1 constructor rejects every key in 65-byte
uncompressed form (leading byte 0x04) and every hybrid-encoded key (leading
byte 0x06 or 0x07) with the invalid-pub-key-format error, while the typed
constructor applied to the parsed form of the same uncompressed key succeeds
with the compressed serialization: on mainnet it yields the expected address
whose payment script pushes the 33-byte compressed form. -/
theorem uncompressed_rejected_typed_compressed (pk : List Nat)
    (params : AddressParams) :
    (pk.length = 65 → pk.headD 0 = 4 →
      newAddressPubKeyEcdsaSecp256k1Raw 0 pk params = .error .invalidPubKeyFormat) ∧
    (pk ≠ [] → (pk.headD 0 = 6 ∨ pk.headD 0 = 7) →
      newAddressPubKeyEcdsaSecp256k1Raw 0 pk params = .error .invalidPubKeyFormat) ∧
    (∃ p a, secpParsePubKey uncompressedTestKey = some p ∧
      newAddressPubKeyEcdsaSecp256k1 0 p mockMainNetParams = .ok a ∧
      secpSerializeCompressed p = compressed64c4 ∧
      a.address = "DkM3EyZ546GghVSkvzb6J47PvGDyntqiDtFgipQhNj78Xm2mUYRpf" ∧
      a.paymentScript = (0, 0x21 :: compressed64c4 ++ [0xac])) := by
  refine ⟨?_, ?_, ?_⟩
  · intro _ hhead
    cases pk with
    | nil => simp at hhead
    | cons b rest =>
      simp only [List.headD_cons] at hhead
      subst hhead
      simp [newAddressPubKeyEcdsaSecp256k1Raw, secpRejectedFormat]
  · intro hne hhead
    cases pk with
    | nil => exact absurd rfl hne
    | cons b rest =>
      simp only [List.headD_cons] at hhead
      rcases hhead with h | h <;> subst h <;>
        simp [newAddressPubKeyEcdsaSecp256k1Raw, secpRejectedFormat]
  · exact ⟨⟨45578072265515463720948386386370305866164309963149155935182973597331862550768,
      83445786129551261999084029994844265775162373072785660121388898563599460481284⟩,
      .pubKeyEcdsaSecp256k1 compressed64c4 (0x13, 0x86),
      by decide, by decide, by decide, by decide, by decide⟩

/-- Witness for C3 at the concrete uncompressed and hybrid test keys of
address_test.go and the mainnet mock parameters. -/
theorem uncompressed_rejected_typed_compressed_witness :
    newAddressPubKeyEcdsaSecp256k1Raw 0 uncompressedTestKey mockMainNetParams =
      .error .invalidPubKeyFormat ∧
    newAddressPubKeyEcdsaSecp256k1Raw 0 hybridTestKey6 mockMainNetParams =
      .error .invalidPubKeyFormat ∧
    newAddressPubKeyEcdsaSecp256k1Raw 0 hybridTestKey7 mockMainNetParams =
      .error .invalidPubKeyFormat :=
  ⟨(uncompressed_rejected_typed_compressed uncompressedTestKey mockMainNetParams).1
      (by decide) (by decide),
   (uncompressed_rejected_typed_compressed hybridTestKey6 mockMainNetParams).2.1
      (by decide) (Or.inl (by decide)),
   (uncompressed_rejected_typed_compressed hybridTestKey7 mockMainNetParams).2.1
      (by decide) (Or.inr (by decide))⟩

/-- A character with a base58 digit value has code point below 123. -/
theorem b58Digit_isSome_lt (c : Char) (h : (b58Digit c).isSome = true) :
    c.toNat < 123 := by
  by_contra hn
  push_neg at hn
  have f : ∀ x, x ≤ 122 → Nat.ble c.toNat x = false := by
    intro x hx
    rw [← Bool.not_eq_true]
    intro hb
    have := Nat.le_of_ble_eq_true hb
    omega
  simp [b58Digit, f 57 (by omega), f 72 (by omega), f 78 (by omega),
    f 90 (by omega), f 107 (by omega), f 122 (by omega)] at h

/-- The 58 alphabet characters all carry a digit value (finite check). -/
theorem alphabet_digit_isSome : ∀ c ∈ b58Alphabet, (b58Digit c).isSome = true := by
  decide

/-- Below code point 123, a character with a digit value is in the alphabet
(finite check). -/
theorem bounded_digit_mem : ∀ n, n < 123 →
    (b58Digit (Char.ofNat n)).isSome = true → Char.ofNat n ∈ b58Alphabet := by
  decide

/-- A character has a base58 digit value exactly when it belongs to the
modified 58-character alphabet. -/
theorem b58Digit_isSome_iff (c : Char) :
    (b58Digit c).isSome = true ↔ c ∈ b58Alphabet := by
  have hofn := Char.ofNat_toNat c
  constructor
  · intro h
    have hb := b58Digit_isSome_lt c h
    have hmem := bounded_digit_mem c.toNat hb (by rwa [hofn])
    rwa [hofn] at hmem
  · exact alphabet_digit_isSome c

/-- C8: the pre-filter accepts exactly the strings over the 58-character
modified alphabet: it agrees with per-character membership in the alphabet,
rejects the excluded characters 0, O, I, l and every ASCII neighbor of the
alphabet's contiguous runs, and the generic decoder rejects any string
carrying a non-alphabet character with the unsupported-address error. -/
theorem prefilter_alphabet_boundary (s : String) (params : AddressParams) :
    (probablyV0Base58Addr s = true ↔ ∀ c ∈ s.data, c ∈ b58Alphabet) ∧
    (∀ c ∈ ['0', 'O', 'I', 'l', Char.ofNat 123, ':', '@', '[', Char.ofNat 96],
      c ∉ b58Alphabet) ∧
    probablyV0Base58Addr "DsUZxxoH0Sty8DCfwfartwTYbuhmVct7tJu" = false ∧
    probablyV0Base58Addr (String.mk ("DsUZxxoH".data
      ++ Char.ofNat 123 :: "Sty8DCfwfartwTYbuhmVct7tJu".data)) = false ∧
    probablyV0Base58Addr "DsUZxxoHISty8DCfwfartwTYbuhmVct7tJu" = false ∧
    probablyV0Base58Addr "DsUZxxoHOSty8DCfwfartwTYbuhmVct7tJu" = false ∧
    probablyV0Base58Addr "DsUZxxoHlSty8DCfwfartwTYbuhmVct7tJu" = false ∧
    probablyV0Base58Addr "DsUZxxoH:Sty8DCfwfartwTYbuhmVct7tJu" = false ∧
    probablyV0Base58Addr "DsUZxxoH@Sty8DCfwfartwTYbuhmVct7tJu" = false ∧
    probablyV0Base58Addr "DsUZxxoH[Sty8DCfwfartwTYbuhmVct7tJu" = false ∧
    probablyV0Base58Addr (String.mk ("DsUZxxoH".data
      ++ Char.ofNat 96 :: "Sty8DCfwfartwTYbuhmVct7tJu".data)) = false ∧
    probablyV0Base58Addr "123456789ABCDEFGHJKLMNPQRSTUVWXYZab" = true ∧
    probablyV0Base58Addr "QRSTUVWXYZabcdefghijkmnopqrstuvwxyz" = true ∧
    ((∃ c ∈ s.data, c ∉ b58Alphabet) →
      decodeAddress s params = .error .unsupportedAddress) := by
  have hiff : probablyV0Base58Addr s = true ↔ ∀ c ∈ s.data, c ∈ b58Alphabet := by
    unfold probablyV0Base58Addr
    rw [List.all_eq_true]
    exact forall_congr' fun c => forall_congr' fun _ => b58Digit_isSome_iff c
  refine ⟨hiff, by decide, by decide, by decide, by decide, by decide, by decide,
    by decide, by decide, by decide, by decide, by decide, by decide, ?_⟩
  intro hex
  have hnot : ¬ probablyV0Base58Addr s = true := by
    intro hp
    obtain ⟨c, hc, hnc⟩ := hex
    exact hnc (hiff.mp hp c hc)
  unfold decodeAddress
  rw [if_neg hnot]

/-- Witness for C8 at the letter-l test string and mainnet parameters. -/
theorem prefilter_alphabet_boundary_witness :
    decodeAddress "DsUZxxoHlSty8DCfwfartwTYbuhmVct7tJu" mockMainNetParams =
      .error .unsupportedAddress :=
  (prefilter_alphabet_boundary "DsUZxxoHlSty8DCfwfartwTYbuhmVct7tJu"
      mockMainNetParams).2.2.2.2.2.2.2.2.2.2.2.2.2
    ⟨'l', by decide, by decide⟩

/-- C5: an address text whose decoded 2-byte prefix matches no kind of the
given network parameters is rejected by the generic decoder with the generic
unsupported-address error, never decoded; in particular the valid mainnet
address decoded against the testnet parameters. -/
theorem wrong_network_unsupported (s : String) (params : AddressParams)
    (pre : Nat × Nat) (payload : List Nat)
    (hdec : b58CheckDecode s = .ok (pre, payload))
    (h1 : pre ≠ params.scriptHashID) (h2 : pre ≠ params.pkhEcdsaID)
    (h3 : pre ≠ params.pkhEd25519ID) (h4 : pre ≠ params.pkhSchnorrID)
    (h5 : pre ≠ params.pubKeyID) :
    decodeAddress s params = .error .unsupportedAddress ∧
    decodeAddress "DsUZxxoHJSty8DCfwfartwTYbuhmVct7tJu" mockTestNetParams =
      .error .unsupportedAddress := by
  constructor
  · have hV0 : decodeAddressV0 s params = .error .unsupportedAddress := by
      unfold decodeAddressV0
      rw [hdec]
      simp [h1, h2, h3, h4, h5]
    unfold decodeAddress
    by_cases hp : probablyV0Base58Addr s = true
    · rw [if_pos hp, hV0]
      simp
    · rw [if_neg hp]
  · decide

/-- Witness for C5 at the concrete mainnet address and testnet parameters. -/
theorem wrong_network_unsupported_witness :
    decodeAddress "DsUZxxoHJSty8DCfwfartwTYbuhmVct7tJu" mockTestNetParams =
      .error .unsupportedAddress ∧
    decodeAddress "DsUZxxoHJSty8DCfwfartwTYbuhmVct7tJu" mockTestNetParams =
      .error .unsupportedAddress :=
  wrong_network_unsupported "DsUZxxoHJSty8DCfwfartwTYbuhmVct7tJu"
    mockTestNetParams (0x07, 0x3f)
    [39, 137, 213, 140, 250, 9, 87, 210, 6, 240, 37, 194, 175, 5, 111, 200,
     167, 124, 235, 176]
    (by decide) (by decide) (by decide) (by decide) (by decide) (by decide)

/-- Inversion for the raw ECDSA/secp256k1 constructor: success means the
format gate passed, the parser accepted the key, and the result stores the
key with the pubkey magic of the parameters. -/
theorem ecdsaRaw_ok_inv (v : Nat) (pk : List Nat) (params : AddressParams)
    (a : AddressV0) (h : newAddressPubKeyEcdsaSecp256k1Raw v pk params = .ok a) :
    secpRejectedFormat pk = false ∧ (∃ p, secpParsePubKey pk = some p) ∧
    a = .pubKeyEcdsaSecp256k1 pk params.pubKeyID := by
  unfold newAddressPubKeyEcdsaSecp256k1Raw at h
  by_cases hv : v ≠ 0
  · rw [if_pos hv] at h; exact absurd h (by simp)
  · rw [if_neg hv] at h
    by_cases hf : secpRejectedFormat pk = true
    · rw [if_pos hf] at h; exact absurd h (by simp)
    · have hf' : secpRejectedFormat pk = false := by
        rwa [Bool.not_eq_true] at hf
      rw [if_neg hf] at h
      cases hp : secpParsePubKey pk with
      | none => rw [hp] at h; exact absurd h (by simp)
      | some p =>
        rw [hp] at h
        injection h with h
        exact ⟨hf', ⟨p, rfl⟩, h.symm⟩

/-- Inversion for the raw Ed25519 constructor: success means the key is a
32-byte value accepted by the parser, stored with the pubkey magic. -/
theorem ed25519Raw_ok_inv (v : Nat) (pk : List Nat) (params : AddressParams)
    (a : AddressV0) (h : newAddressPubKeyEd25519Raw v pk params = .ok a) :
    pk.length = 32 ∧ (∃ p, edParsePubKey pk = some p) ∧
    a = .pubKeyEd25519 pk params.pubKeyID := by
  unfold newAddressPubKeyEd25519Raw at h
  by_cases hv : v ≠ 0
  · rw [if_pos hv] at h; exact absurd h (by simp)
  · rw [if_neg hv] at h
    cases hp : edParsePubKey pk with
    | none => rw [hp] at h; exact absurd h (by simp)
    | some p =>
      rw [hp] at h
      injection h with h
      have hl : pk.length = 32 := by
        by_contra hn
        have hcond : ¬ (pk.length = 32 ∧ allBytes pk = true) := fun hc => hn hc.1
        unfold edParsePubKey at hp
        rw [if_neg hcond] at hp
        exact absurd hp (by simp)
      exact ⟨hl, ⟨p, rfl⟩, h.symm⟩

/-- A key accepted by the secp256k1 parser and not rejected by the
compressed-format gate is exactly 33 bytes with a 0x02/0x03 leading byte. -/
theorem secpParse_compressed_length (pk : List Nat) (p : SecpPoint)
    (hp : secpParsePubKey pk = some p) (hf : secpRejectedFormat pk = false) :
    pk.length = 33 ∧ (pk.headD 0 = 2 ∨ pk.headD 0 = 3) := by
  cases pk with
  | nil => exact absurd hp (by simp [secpParsePubKey])
  | cons b rest =>
    simp only [secpParsePubKey] at hp
    by_cases h1 : ((b = 2 || b = 3) && rest.length == 32 && allBytes rest) = true
    · simp only [Bool.and_eq_true, Bool.or_eq_true, decide_eq_true_eq,
        beq_iff_eq] at h1
      obtain ⟨⟨hb23, hlen⟩, _⟩ := h1
      refine ⟨?_, ?_⟩
      · simp [List.length_cons, hlen]
      · simpa using hb23
    · rw [if_neg h1] at hp
      by_cases h2 : ((b = 4 || b = 6 || b = 7) && rest.length == 64 && allBytes rest) = true
      · exfalso
        simp only [Bool.and_eq_true, Bool.or_eq_true, decide_eq_true_eq] at h2
        have hb : b = 4 ∨ b = 6 ∨ b = 7 := by tauto
        simp [secpRejectedFormat] at hf
        rcases hb with h | h | h <;> simp [h] at hf
      · rw [if_neg h2] at hp
        exact absurd hp (by simp)

/-- C6: payment scripts of pay-to-pubkey addresses.  Every successfully
constructed ECDSA/secp256k1 pay-to-pubkey address has the version 0 script
0x21 (push 33) ++ 33-byte key ++ 0xac (OP_CHECKSIG); every Ed25519
pay-to-pubkey address has the version 0 script 0x20 ++ 32-byte key ++ the
alt-checksig marker bytes 0x51 0xbe; and the stored test keys produce
exactly the hard-coded expected scripts. -/
theorem p2pk_payment_script_forms (v : Nat) (pk : List Nat)
    (params : AddressParams) (a : AddressV0) :
    (newAddressPubKeyEcdsaSecp256k1Raw v pk params = .ok a →
      a.paymentScript = (0, 0x21 :: (pk ++ [0xac])) ∧ pk.length = 33) ∧
    (newAddressPubKeyEd25519Raw v pk params = .ok a →
      a.paymentScript = (0, 0x20 :: (pk ++ [0x51, 0xbe])) ∧ pk.length = 32) ∧
    (∃ b, newAddressPubKeyEcdsaSecp256k1Raw 0 compressedTestKey
        mockMainNetParams = .ok b ∧
      b.paymentScript = (0, [0x21] ++ compressedTestKey ++ [0xac])) ∧
    (∃ b, newAddressPubKeyEd25519Raw 0 ed25519TestKey mockMainNetParams = .ok b ∧
      b.paymentScript = (0, [0x20] ++ ed25519TestKey ++ [0x51, 0xbe])) := by
  refine ⟨?_, ?_, ?_, ?_⟩
  · intro h
    obtain ⟨hf, ⟨p, hp⟩, ha⟩ := ecdsaRaw_ok_inv v pk params a h
    subst ha
    exact ⟨rfl, (secpParse_compressed_length pk p hp hf).1⟩
  · intro h
    obtain ⟨hlen, _, ha⟩ := ed25519Raw_ok_inv v pk params a h
    subst ha
    exact ⟨rfl, hlen⟩
  · exact ⟨.pubKeyEcdsaSecp256k1 compressedTestKey (0x13, 0x86), by decide, by decide⟩
  · exact ⟨.pubKeyEd25519 ed25519TestKey (0x13, 0x86), by decide, by decide⟩

/-- Witness for C6 at the stored ECDSA test key: the constructor succeeds
and the payment script has the expected 33-byte-push form. -/
theorem p2pk_payment_script_forms_witness :
    (AddressV0.pubKeyEcdsaSecp256k1 compressedTestKey (0x13, 0x86)).paymentScript =
      (0, 0x21 :: (compressedTestKey ++ [0xac])) ∧ compressedTestKey.length = 33 :=
  (p2pk_payment_script_forms 0 compressedTestKey mockMainNetParams
      (.pubKeyEcdsaSecp256k1 compressedTestKey (0x13, 0x86))).1 (by decide)

/-- A successful accumulated base58 parse means every character has a digit
value. -/
theorem b58ValAux_some_isSome (cs : List Char) (acc n : Nat)
    (h : b58ValAux acc cs = some n) : ∀ c ∈ cs, (b58Digit c).isSome = true := by
  induction cs generalizing acc with
  | nil => intro c hc; cases hc
  | cons d t ih =>
    intro c hc
    unfold b58ValAux at h
    cases hd : b58Digit d with
    | none => rw [hd] at h; exact absurd h (by simp)
    | some dv =>
      rw [hd] at h
      cases hc with
      | head => simp [hd]
      | tail _ ht => exact ih _ h c ht

/-- A checksum-mismatch verdict from the codec implies every character of
the text is in the modified alphabet, so the pre-filter passes. -/
theorem badChecksum_probably (s : String)
    (h : b58CheckDecode s = .error .badChecksum) :
    probablyV0Base58Addr s = true := by
  unfold b58CheckDecode at h
  cases hv : b58ValOf s.data with
  | none => rw [hv] at h; exact absurd h (by simp)
  | some n =>
    unfold probablyV0Base58Addr
    rw [List.all_eq_true]
    intro c hc
    exact b58ValAux_some_isSome s.data 0 n hv c hc
/-- Folding the positional accumulator over a digit list from an arbitrary
start value. -/
theorem foldlMulAdd_acc (b : Nat) (ds : List Nat) (acc : Nat) :
    List.foldl (fun a d => a * b + d) acc ds = acc * b ^ ds.length + digitsToNat b ds := by
  induction ds generalizing acc with
  | nil => simp [digitsToNat]
  | cons d ds ih =>
    have h1 : List.foldl (fun a d => a * b + d) acc (d :: ds)
        = (acc * b + d) * b ^ ds.length + digitsToNat b ds := by
      rw [List.foldl_cons]; exact ih (acc * b + d)
    have h2 : digitsToNat b (d :: ds) = d * b ^ ds.length + digitsToNat b ds := by
      show List.foldl _ 0 (d :: ds) = _
      rw [List.foldl_cons]
      have := ih (0 * b + d)
      simpa using this
    rw [h1, h2, List.length_cons]
    ring

/-- Head-based expansion of a big-endian digit value. -/
theorem digitsToNat_cons (b d : Nat) (ds : List Nat) :
    digitsToNat b (d :: ds) = d * b ^ ds.length + digitsToNat b ds := by
  show List.foldl _ 0 (d :: ds) = _
  rw [List.foldl_cons]
  have := foldlMulAdd_acc b ds (0 * b + d)
  simpa using this

/-- Splitting a big-endian digit value over list append. -/
theorem digitsToNat_append (b : Nat) (xs ys : List Nat) :
    digitsToNat b (xs ++ ys)
      = digitsToNat b xs * b ^ ys.length + digitsToNat b ys := by
  show List.foldl _ 0 (xs ++ ys) = _
  rw [List.foldl_append]
  exact foldlMulAdd_acc b ys _

/-- A digit list with digits below the base denotes a value below
base-to-the-length. -/
theorem digitsToNat_lt (b : Nat) (ds : List Nat) (hb : 0 < b)
    (h : ∀ d ∈ ds, d < b) : digitsToNat b ds < b ^ ds.length := by
  induction ds with
  | nil => simp [digitsToNat]
  | cons d ds ih =>
    rw [digitsToNat_cons, List.length_cons]
    have hD := ih (fun x hx => h x (List.mem_cons_of_mem _ hx))
    have hd : d + 1 ≤ b := h d (List.mem_cons_self _ _)
    calc d * b ^ ds.length + digitsToNat b ds
        < d * b ^ ds.length + b ^ ds.length := Nat.add_lt_add_left hD _
      _ = (d + 1) * b ^ ds.length := by ring
      _ ≤ b * b ^ ds.length := Nat.mul_le_mul hd (Nat.le_refl _)
      _ = b ^ (ds.length + 1) := by ring

/-- Leading zero digits do not change the denoted value. -/
theorem digitsToNat_replicate_zero (b z : Nat) (ds : List Nat) :
    digitsToNat b (List.replicate z 0 ++ ds) = digitsToNat b ds := by
  induction z with
  | zero => simp
  | succ z ih =>
    rw [List.replicate_succ, List.cons_append, digitsToNat_cons]
    simpa using ih

/-- A digit list with a nonzero head denotes at least base-to-the-tail-length. -/
theorem digitsToNat_head_lower (b d : Nat) (ds : List Nat) (hd : d ≠ 0) :
    b ^ ds.length ≤ digitsToNat b (d :: ds) := by
  rw [digitsToNat_cons]
  calc b ^ ds.length = 1 * b ^ ds.length := (Nat.one_mul _).symm
    _ ≤ d * b ^ ds.length := Nat.mul_le_mul (Nat.one_le_iff_ne_zero.mpr hd) (Nat.le_refl _)
    _ ≤ _ := Nat.le_add_right _ _

/-- Zero has no big-endian digits at any fuel. -/
theorem natDigitsBEF_zero (fuel b : Nat) : natDigitsBEF fuel b 0 = [] := by
  cases fuel <;> simp [natDigitsBEF]

/-- With sufficient fuel, reading the produced digits back gives the
original value. -/
theorem digitsToNat_natDigitsBEF (b : Nat) (hb : 1 < b) :
    ∀ fuel n, n < b ^ fuel → digitsToNat b (natDigitsBEF fuel b n) = n := by
  intro fuel
  induction fuel with
  | zero =>
    intro n hn
    have : n = 0 := by simpa using hn
    subst this
    simp [natDigitsBEF, digitsToNat]
  | succ fuel ih =>
    intro n hn
    by_cases h0 : n = 0
    · subst h0; simp [natDigitsBEF, digitsToNat]
    · rw [natDigitsBEF, if_neg h0, digitsToNat_append]
      have hdiv : n / b < b ^ fuel := by
        rw [Nat.div_lt_iff_lt_mul (by omega : 0 < b)]
        calc n < b ^ (fuel + 1) := hn
          _ = b ^ fuel * b := by ring
      rw [ih _ hdiv]
      have hone : digitsToNat b [n % b] = n % b := by simp [digitsToNat]
      rw [hone, List.length_singleton, pow_one]
      have hdm := Nat.div_add_mod n b
      rw [Nat.mul_comm] at hdm
      exact hdm

/-- Every produced big-endian digit is below the base. -/
theorem natDigitsBEF_mem_lt (b : Nat) (hb : 0 < b) :
    ∀ fuel n d, d ∈ natDigitsBEF fuel b n → d < b := by
  intro fuel
  induction fuel with
  | zero => intro n d hd; simp [natDigitsBEF] at hd
  | succ fuel ih =>
    intro n d hd
    rw [natDigitsBEF] at hd
    by_cases h0 : n = 0
    · rw [if_pos h0] at hd; simp at hd
    · rw [if_neg h0] at hd
      rcases List.mem_append.1 hd with h | h
      · exact ih _ _ h
      · have : d = n % b := by simpa using h
        subst this
        exact Nat.mod_lt _ hb

/-- With sufficient fuel, the value is below base-to-the-digit-count. -/
theorem natDigitsBEF_length_bound (b : Nat) (hb : 1 < b) :
    ∀ fuel n, n < b ^ fuel → n < b ^ (natDigitsBEF fuel b n).length := by
  intro fuel
  induction fuel with
  | zero =>
    intro n hn
    simpa [natDigitsBEF] using hn
  | succ fuel ih =>
    intro n hn
    by_cases h0 : n = 0
    · subst h0; simp [natDigitsBEF]
    · rw [natDigitsBEF, if_neg h0]
      have hdiv : n / b < b ^ fuel := by
        rw [Nat.div_lt_iff_lt_mul (by omega : 0 < b)]
        calc n < b ^ (fuel + 1) := hn
          _ = b ^ fuel * b := by ring
      have hlt := ih _ hdiv
      rw [List.length_append, List.length_singleton]
      calc n < (n / b + 1) * b :=
              (Nat.div_lt_iff_lt_mul (by omega : 0 < b)).mp (Nat.lt_succ_self _)
        _ ≤ b ^ (natDigitsBEF fuel b (n / b)).length * b :=
              Nat.mul_le_mul hlt (Nat.le_refl _)
        _ = b ^ ((natDigitsBEF fuel b (n / b)).length + 1) := by ring

/-- A nonzero value has a nonempty digit rendering with a nonzero leading
digit (with sufficient fuel). -/
theorem natDigitsBEF_head (b : Nat) (hb : 1 < b) :
    ∀ fuel n, n ≠ 0 → n < b ^ fuel →
      natDigitsBEF fuel b n ≠ [] ∧ (natDigitsBEF fuel b n).headD 0 ≠ 0 := by
  intro fuel
  induction fuel with
  | zero =>
    intro n hn0 hn
    exact absurd (by simpa using hn) hn0
  | succ fuel ih =>
    intro n hn0 hn
    rw [natDigitsBEF, if_neg hn0]
    by_cases hq : n / b = 0
    · rw [hq, natDigitsBEF_zero, List.nil_append]
      have hnb : n % b = n := by
        have : n < b := by
          rcases Nat.lt_or_ge n b with h | h
          · exact h
          · exact absurd hq (by
              have : 0 < n / b := Nat.div_pos h (by omega)
              omega)
        exact Nat.mod_eq_of_lt this
      refine ⟨by simp, ?_⟩
      simpa [hnb] using hn0
    · have hdiv : n / b < b ^ fuel := by
        rw [Nat.div_lt_iff_lt_mul (by omega : 0 < b)]
        calc n < b ^ (fuel + 1) := hn
          _ = b ^ fuel * b := by ring
      obtain ⟨hne, hhd⟩ := ih _ hq hdiv
      cases hxs : natDigitsBEF fuel b (n / b) with
      | nil => exact absurd hxs hne
      | cons x xs =>
        rw [hxs] at hhd
        refine ⟨by simp, ?_⟩
        simpa using hhd

/-- The accumulator of the byte renderer is a plain suffix. -/
theorem beBytesAux_append (k n : Nat) (acc : List Nat) :
    beBytesAux k n acc = beBytesAux k n [] ++ acc := by
  induction k generalizing n acc with
  | zero => simp [beBytesAux]
  | succ k ih =>
    rw [beBytesAux]
    conv_rhs => rw [beBytesAux]
    rw [ih (n / 256) (n % 256 :: acc), ih (n / 256) [n % 256]]
    simp

/-- The fixed-width byte rendering has exactly the requested width. -/
theorem beBytesAux_length (k n : Nat) (acc : List Nat) :
    (beBytesAux k n acc).length = k + acc.length := by
  induction k generalizing n acc with
  | zero => simp [beBytesAux]
  | succ k ih =>
    rw [beBytesAux, ih]
    simp
    omega

/-- The fixed-width byte rendering has exactly the requested width. -/
theorem beBytesFixed_length (k n : Nat) : (beBytesFixed k n).length = k := by
  rw [beBytesFixed, beBytesAux_length]
  rfl

/-- Every element of the fixed-width rendering is a byte. -/
theorem beBytesAux_mem (k : Nat) :
    ∀ n acc x, x ∈ beBytesAux k n acc → x ∈ acc ∨ x < 256 := by
  induction k with
  | zero => intro n acc x hx; exact Or.inl (by simpa [beBytesAux] using hx)
  | succ k ih =>
    intro n acc x hx
    rw [beBytesAux] at hx
    rcases ih _ _ _ hx with h | h
    · rcases List.mem_cons.1 h with h | h
      · subst h; exact Or.inr (Nat.mod_lt _ (by omega))
      · exact Or.inl h
    · exact Or.inr h

/-- Every element of the fixed-width rendering is a byte. -/
theorem beBytesFixed_allBytes (k n : Nat) : allBytes (beBytesFixed k n) = true := by
  rw [allBytes, List.all_eq_true]
  intro x hx
  rcases beBytesAux_mem k n [] x hx with h | h
  · simp at h
  · simpa [Nat.ble_eq] using Nat.lt_succ_iff.mp h

/-- Rendering a value below the width bound and reading it back is the
identity. -/
theorem beNat_beBytesFixed (k : Nat) :
    ∀ n, n < 256 ^ k → beNat (beBytesFixed k n) = n := by
  induction k with
  | zero =>
    intro n hn
    have : n = 0 := by simpa using hn
    subst this
    simp [beBytesFixed, beBytesAux, beNat, digitsToNat]
  | succ k ih =>
    intro n hn
    rw [beBytesFixed, beBytesAux, beBytesAux_append]
    have hdiv : n / 256 < 256 ^ k := by
      rw [Nat.div_lt_iff_lt_mul (by omega : 0 < 256)]
      calc n < 256 ^ (k + 1) := hn
        _ = 256 ^ k * 256 := by ring
    have hrec : digitsToNat 256 (beBytesAux k (n / 256) []) = n / 256 := ih _ hdiv
    rw [beNat, digitsToNat_append, hrec]
    have hone : digitsToNat 256 [n % 256] = n % 256 := by simp [digitsToNat]
    rw [hone, List.length_singleton, pow_one]
    omega

/-- Reading a byte list and re-rendering it at its own length is the
identity. -/
theorem beBytesFixed_beNat (bs : List Nat) (h : allBytes bs = true) :
    beBytesFixed bs.length (beNat bs) = bs := by
  induction bs using List.reverseRecOn with
  | nil => simp [beBytesFixed, beBytesAux, beNat, digitsToNat]
  | append_singleton xs x ih =>
    rw [allBytes, List.all_append] at h
    simp only [Bool.and_eq_true] at h
    have hxs : allBytes xs = true := by rw [allBytes]; exact h.1
    have hx : x < 256 := by
      have := h.2
      simp [Nat.ble_eq] at this
      omega
    have hval : beNat (xs ++ [x]) = beNat xs * 256 + x := by
      rw [beNat, digitsToNat_append, List.length_singleton, pow_one]
      have : digitsToNat 256 [x] = x := by simp [digitsToNat]
      rw [this]
      rfl
    rw [hval, List.length_append, List.length_singleton]
    rw [beBytesFixed, beBytesAux]
    have hdiv : (beNat xs * 256 + x) / 256 = beNat xs := by
      rw [Nat.add_comm, Nat.add_mul_div_right _ _ (by omega : 0 < 256)]
      simp [Nat.div_eq_of_lt hx]
    have hmod : (beNat xs * 256 + x) % 256 = x := by
      rw [Nat.add_comm, Nat.add_mul_mod_self_right]
      exact Nat.mod_eq_of_lt hx
    rw [hdiv, hmod, beBytesAux_append, ← beBytesFixed, ih hxs]

/-- The minimal byte length of zero is zero at any fuel. -/
theorem natLen256_zero (fuel : Nat) : natLen256 fuel 0 = 0 := by
  cases fuel <;> simp [natLen256]

/-- On the value of a byte list with a nonzero head (or the empty list), the
minimal-length computation returns the exact list length whenever the fuel
covers it. -/
theorem natLen256_exact (bs : List Nat) (hb : allBytes bs = true)
    (hh : bs = [] ∨ bs.headD 0 ≠ 0) :
    ∀ fuel, bs.length ≤ fuel → natLen256 fuel (beNat bs) = bs.length := by
  induction bs using List.reverseRecOn with
  | nil =>
    intro fuel _
    simp [beNat, digitsToNat, natLen256_zero]
  | append_singleton xs x ih =>
    intro fuel hfuel
    rw [allBytes, List.all_append] at hb
    simp only [Bool.and_eq_true] at hb
    have hxs : allBytes xs = true := by rw [allBytes]; exact hb.1
    have hx : x < 256 := by
      have := hb.2
      simp [Nat.ble_eq] at this
      omega
    have hne : xs ++ [x] ≠ [] := by simp
    have hhd : (xs ++ [x]).headD 0 ≠ 0 := by
      rcases hh with h | h
      · exact absurd h hne
      · exact h
    have hpos : 0 < beNat (xs ++ [x]) := by
      cases hys : xs ++ [x] with
      | nil => exact absurd hys hne
      | cons y ys =>
        have hy : y ≠ 0 := by rw [hys] at hhd; simpa using hhd
        calc 0 < 256 ^ ys.length := Nat.pos_pow_of_pos _ (by omega)
          _ ≤ beNat (y :: ys) := digitsToNat_head_lower 256 y ys hy
    have hval : beNat (xs ++ [x]) = beNat xs * 256 + x := by
      rw [beNat, digitsToNat_append, List.length_singleton, pow_one]
      have hone : digitsToNat 256 [x] = x := by simp [digitsToNat]
      rw [hone]
      rfl
    rw [List.length_append, List.length_singleton] at hfuel ⊢
    cases fuel with
    | zero => omega
    | succ fuel =>
      rw [natLen256, if_neg (by omega : ¬beNat (xs ++ [x]) = 0)]
      have hdiv : beNat (xs ++ [x]) / 256 = beNat xs := by
        rw [hval, Nat.add_comm, Nat.add_mul_div_right _ _ (by omega : 0 < 256)]
        simp [Nat.div_eq_of_lt hx]
      rw [hdiv]
      have hxh : xs = [] ∨ xs.headD 0 ≠ 0 := by
        cases hxs2 : xs with
        | nil => exact Or.inl rfl
        | cons y ys =>
          refine Or.inr ?_
          rw [hxs2] at hhd
          simpa using hhd
      rw [ih hxs hxh fuel (by omega)]

/-- Counting leading copies across an explicit replicate prefix. -/
theorem countLeading_replicate_append [DecidableEq α] (x : α) (z : Nat)
    (ys : List α) :
    countLeading x (List.replicate z x ++ ys) = z + countLeading x ys := by
  induction z with
  | zero => simp
  | succ z ih =>
    rw [List.replicate_succ, List.cons_append, countLeading, if_pos rfl, ih]
    omega

/-- A list that is empty or starts with a different element has no leading
copies. -/
theorem countLeading_ne_head [DecidableEq α] (x : α) (ys : List α)
    (h : ys = [] ∨ ys.headD x ≠ x) : countLeading x ys = 0 := by
  cases ys with
  | nil => rfl
  | cons y t =>
    rcases h with h | h
    · cases h
    · rw [countLeading, if_neg (by simpa using h)]

/-- Every list splits as its leading copies of an element followed by a
remainder not starting with it. -/
theorem countLeading_decompose [DecidableEq α] (x : α) (l : List α) :
    l = List.replicate (countLeading x l) x ++ l.drop (countLeading x l)
    ∧ (l.drop (countLeading x l) = []
       ∨ (l.drop (countLeading x l)).headD x ≠ x) := by
  induction l with
  | nil => simp [countLeading]
  | cons y ys ih =>
    by_cases hy : y = x
    · subst hy
      rw [countLeading, if_pos rfl]
      constructor
      · rw [List.replicate_succ, List.cons_append, List.drop_succ_cons]
        exact congrArg _ ih.1
      · rw [List.drop_succ_cons]
        exact ih.2
    · rw [countLeading, if_neg hy]
      exact ⟨rfl, Or.inr (by simpa using hy)⟩

/-- The digit table inverts the character table on every digit value. -/
theorem b58Digit_charOf : ∀ d, d < 58 → b58Digit (b58CharOf d) = some d := by
  decide

/-- No nonzero digit renders as the leading-zero character. -/
theorem b58CharOf_ne_one : ∀ d, d < 58 → d ≠ 0 → b58CharOf d ≠ '1' := by
  decide

/-- Accumulated parse of a rendered digit list. -/
theorem b58ValAux_map_charOf (ds : List Nat) (hds : ∀ d ∈ ds, d < 58) :
    ∀ acc, b58ValAux acc (ds.map b58CharOf)
      = some (List.foldl (fun a d => a * 58 + d) acc ds) := by
  induction ds with
  | nil => intro acc; simp [b58ValAux]
  | cons d ds ih =>
    intro acc
    have hd58 := b58Digit_charOf d (hds d (List.mem_cons_self _ _))
    rw [List.map_cons, b58ValAux, hd58, List.foldl_cons]
    exact ih (fun y hy => hds y (List.mem_cons_of_mem _ hy)) _

/-- Leading `1` characters do not change the accumulated zero parse. -/
theorem b58ValAux_replicate_one (z : Nat) (cs : List Char) :
    b58ValAux 0 (List.replicate z '1' ++ cs) = b58ValAux 0 cs := by
  induction z with
  | zero => simp
  | succ z ih =>
    rw [List.replicate_succ, List.cons_append, b58ValAux]
    have h1 : b58Digit '1' = some 0 := by decide
    rw [h1]
    simpa using ih

/-- The byte bound transfers through the base58 fuel. -/
theorem pow256_lt_pow58 (L : Nat) : 256 ^ L < 58 ^ (2 * L + 2) := by
  calc 256 ^ L ≤ 3364 ^ L := Nat.pow_le_pow_left (by omega) L
    _ = 58 ^ (2 * L) := by
        rw [Nat.pow_mul]
    _ < 58 ^ (2 * L + 2) := Nat.pow_lt_pow_right (by omega) (by omega)

/-- The value bound justifying the encoder fuel. -/
theorem beNat_lt_fuel (bs : List Nat) (h : allBytes bs = true) :
    beNat bs < 58 ^ (2 * bs.length + 2) := by
  have h1 : beNat bs < 256 ^ bs.length := by
    rw [beNat]
    refine digitsToNat_lt 256 bs (by omega) ?_
    intro d hd
    rw [allBytes, List.all_eq_true] at h
    have := h d hd
    simp [Nat.ble_eq] at this
    omega
  exact Nat.lt_trans h1 (pow256_lt_pow58 _)

/-- The denoted base58 value of an encoded byte string is the byte value. -/
theorem b58ValOf_encode (bs : List Nat) (h : allBytes bs = true) :
    b58ValOf (b58Encode bs).data = some (beNat bs) := by
  rw [b58Encode]
  show b58ValAux 0 (List.replicate (countLeading 0 bs) '1'
    ++ (natDigitsBEF (2 * bs.length + 2) 58 (beNat bs)).map b58CharOf) = _
  rw [b58ValAux_replicate_one]
  rw [b58ValAux_map_charOf _ (fun d hd => natDigitsBEF_mem_lt 58 (by omega) _ _ d hd)]
  have hval : List.foldl (fun a d => a * 58 + d) 0
      (natDigitsBEF (2 * bs.length + 2) 58 (beNat bs)) = beNat bs := by
    show digitsToNat 58 _ = _
    exact digitsToNat_natDigitsBEF 58 (by omega) _ _ (beNat_lt_fuel bs h)
  rw [hval]

/-- The encoded text has exactly one leading `1` character per leading zero
byte. -/
theorem encode_countLeading (bs : List Nat) (h : allBytes bs = true) :
    countLeading '1' (b58Encode bs).data = countLeading 0 bs := by
  rw [b58Encode]
  show countLeading '1' (List.replicate (countLeading 0 bs) '1'
    ++ (natDigitsBEF (2 * bs.length + 2) 58 (beNat bs)).map b58CharOf) = _
  rw [countLeading_replicate_append]
  have hz : countLeading '1'
      ((natDigitsBEF (2 * bs.length + 2) 58 (beNat bs)).map b58CharOf) = 0 := by
    cases hd : natDigitsBEF (2 * bs.length + 2) 58 (beNat bs) with
    | nil => rfl
    | cons d ds =>
      have hn0 : beNat bs ≠ 0 := by
        intro h0
        rw [h0, natDigitsBEF_zero] at hd
        cases hd
      have hhead := natDigitsBEF_head 58 (by omega) (2 * bs.length + 2)
        (beNat bs) hn0 (beNat_lt_fuel bs h)
      rw [hd] at hhead
      have hd0 : d ≠ 0 := by simpa using hhead.2
      have hd58 : d < 58 := natDigitsBEF_mem_lt 58 (by omega) _ _ d
        (by rw [hd]; exact List.mem_cons_self _ _)
      rw [List.map_cons]
      exact countLeading_ne_head _ _ (Or.inr
        (by simpa using b58CharOf_ne_one d hd58 hd0))
  omega

/-- On an encoded byte string, the length the decoder computes is the byte
count. -/
theorem decode_len_eq (bs : List Nat) (h : allBytes bs = true) :
    countLeading '1' (b58Encode bs).data
      + natLen256 (b58Encode bs).data.length (beNat bs) = bs.length := by
  obtain ⟨hdec, hrest⟩ := countLeading_decompose 0 bs
  have hval : beNat bs = beNat (bs.drop (countLeading 0 bs)) := by
    conv_lhs => rw [hdec]
    rw [beNat, digitsToNat_replicate_zero]
    rfl
  have hrlen : countLeading 0 bs + (bs.drop (countLeading 0 bs)).length
      = bs.length := by
    conv_rhs => rw [hdec]
    rw [List.length_append, List.length_replicate]
  have hrb : allBytes (bs.drop (countLeading 0 bs)) = true := by
    rw [allBytes, List.all_eq_true] at h ⊢
    intro a ha
    exact h a (List.mem_of_mem_drop ha)
  have hstr : (b58Encode bs).data.length = countLeading 0 bs
      + (natDigitsBEF (2 * bs.length + 2) 58 (beNat bs)).length := by
    rw [b58Encode]
    show (List.replicate (countLeading 0 bs) '1'
      ++ (natDigitsBEF (2 * bs.length + 2) 58 (beNat bs)).map b58CharOf).length = _
    rw [List.length_append, List.length_replicate, List.length_map]
  have hdl : (bs.drop (countLeading 0 bs)).length
      ≤ (natDigitsBEF (2 * bs.length + 2) 58 (beNat bs)).length := by
    cases hr : bs.drop (countLeading 0 bs) with
    | nil => simp
    | cons r rs =>
      have hr0 : r ≠ 0 := by
        rcases hrest with h' | h'
        · rw [h'] at hr; cases hr
        · rw [hr] at h'; simpa using h'
      have hlow : 256 ^ rs.length ≤ beNat (bs.drop (countLeading 0 bs)) := by
        rw [hr]; exact digitsToNat_head_lower 256 r rs hr0
      by_contra hcon
      push_neg at hcon
      rw [List.length_cons] at hcon
      have hup : beNat bs
          < 58 ^ (natDigitsBEF (2 * bs.length + 2) 58 (beNat bs)).length :=
        natDigitsBEF_length_bound 58 (by omega) _ _ (beNat_lt_fuel bs h)
      have hchain : 58 ^ (natDigitsBEF (2 * bs.length + 2) 58 (beNat bs)).length
          ≤ 256 ^ rs.length :=
        calc 58 ^ (natDigitsBEF (2 * bs.length + 2) 58 (beNat bs)).length
            ≤ 256 ^ (natDigitsBEF (2 * bs.length + 2) 58 (beNat bs)).length :=
              Nat.pow_le_pow_left (by omega) _
          _ ≤ 256 ^ rs.length := Nat.pow_le_pow_right (by omega) (by omega)
      omega
  have hnat : natLen256 ((b58Encode bs).data.length) (beNat bs)
      = (bs.drop (countLeading 0 bs)).length := by
    rw [hval]
    refine natLen256_exact _ hrb hrest _ ?_
    rw [hstr]
    omega
  rw [encode_countLeading bs h, hnat]
  exact hrlen

/-- Checksummed decoding inverts checksummed encoding on byte-valued prefix
and payload. -/
theorem b58CheckDecode_encode (p1 p2 : Nat) (payload : List Nat)
    (h1 : p1 < 256) (h2 : p2 < 256) (hp : allBytes payload = true) :
    b58CheckDecode (b58CheckEncode (p1, p2) payload) = .ok ((p1, p2), payload) := by
  have hbodyb : allBytes (p1 :: p2 :: payload) = true := by
    rw [allBytes] at hp ⊢
    simp only [List.all_cons, Bool.and_eq_true]
    refine ⟨?_, ?_, hp⟩
    · simp [Nat.ble_eq]; omega
    · simp [Nat.ble_eq]; omega
  have hckl : (checksum4 (p1 :: p2 :: payload)).length = 4 := by
    rw [checksum4]; exact beBytesFixed_length _ _
  have hckb : allBytes (checksum4 (p1 :: p2 :: payload)) = true := by
    rw [checksum4]; exact beBytesFixed_allBytes _ _
  have hbs : allBytes ((p1 :: p2 :: payload) ++ checksum4 (p1 :: p2 :: payload))
      = true := by
    rw [allBytes, List.all_append]
    simp only [Bool.and_eq_true]
    exact ⟨hbodyb, hckb⟩
  have hlentot : ((p1 :: p2 :: payload) ++ checksum4 (p1 :: p2 :: payload)).length
      = payload.length + 6 := by
    rw [List.length_append, hckl]
    simp

  have hcklt : beNat (checksum4 (p1 :: p2 :: payload)) < 4294967296 := by
    have hmem : ∀ d ∈ checksum4 (p1 :: p2 :: payload), d < 256 := by
      intro d hd
      rw [allBytes, List.all_eq_true] at hckb
      have := hckb d hd
      simp [Nat.ble_eq] at this
      omega
    have := digitsToNat_lt 256 (checksum4 (p1 :: p2 :: payload)) (by omega) hmem
    rw [hckl] at this
    norm_num at this
    exact this
  have hsplit : beNat ((p1 :: p2 :: payload) ++ checksum4 (p1 :: p2 :: payload))
      = beNat (p1 :: p2 :: payload) * 4294967296
        + beNat (checksum4 (p1 :: p2 :: payload)) := by
    rw [beNat, digitsToNat_append, hckl]
    norm_num
    rfl
  have hdiv : beNat ((p1 :: p2 :: payload) ++ checksum4 (p1 :: p2 :: payload))
      / 4294967296 = beNat (p1 :: p2 :: payload) := by
    rw [hsplit, Nat.add_comm, Nat.add_mul_div_right _ _ (by omega : (0:Nat) < 4294967296)]
    rw [Nat.div_eq_of_lt hcklt]
    omega
  have hmod : beNat ((p1 :: p2 :: payload) ++ checksum4 (p1 :: p2 :: payload))
      % 4294967296 = beNat (checksum4 (p1 :: p2 :: payload)) := by
    rw [hsplit, Nat.add_comm, Nat.add_mul_mod_self_right]
    exact Nat.mod_eq_of_lt hcklt
  show b58CheckDecode (b58Encode ((p1 :: p2 :: payload)
    ++ checksum4 (p1 :: p2 :: payload))) = _
  unfold b58CheckDecode
  rw [b58ValOf_encode _ hbs]
  simp only [forceNat_eq, forceList_eq]
  rw [decode_len_eq _ hbs]
  rw [if_neg (by omega : ¬ ((p1 :: p2 :: payload)
    ++ checksum4 (p1 :: p2 :: payload)).length < 6)]
  rw [hdiv, hmod]
  have hlen4 : ((p1 :: p2 :: payload) ++ checksum4 (p1 :: p2 :: payload)).length - 4
      = (p1 :: p2 :: payload).length := by
    rw [List.length_append, hckl]
    exact Nat.add_sub_cancel _ _
  rw [hlen4, beBytesFixed_beNat _ hbodyb]
  have hckrt : beBytesFixed 4 (beNat (checksum4 (p1 :: p2 :: payload)))
      = checksum4 (p1 :: p2 :: payload) := by
    conv_lhs => rw [← hckl]
    exact beBytesFixed_beNat _ hckb
  rw [hckrt, if_pos rfl]

/-- Pair form of the codec round-trip. -/
theorem b58CheckDecode_encode_pair (pre : Nat × Nat) (payload : List Nat)
    (h1 : pre.1 < 256) (h2 : pre.2 < 256) (hp : allBytes payload = true) :
    b58CheckDecode (b58CheckEncode pre payload) = .ok (pre, payload) := by
  obtain ⟨p1, p2⟩ := pre
  exact b58CheckDecode_encode p1 p2 payload h1 h2 hp

/-- A key the parser accepts in the non-rejected format is one
0x02/0x03 byte followed by 32 coordinate bytes. -/
theorem secpParse_shape (pk : List Nat) (p : SecpPoint)
    (hp : secpParsePubKey pk = some p) (hf : secpRejectedFormat pk = false) :
    ∃ b rest, pk = b :: rest ∧ (b = 2 ∨ b = 3) ∧ rest.length = 32
      ∧ allBytes rest = true := by
  cases pk with
  | nil => exact absurd hp (by simp [secpParsePubKey])
  | cons b rest =>
    simp only [secpParsePubKey] at hp
    by_cases h1 : ((b = 2 || b = 3) && rest.length == 32 && allBytes rest) = true
    · simp only [Bool.and_eq_true, Bool.or_eq_true, decide_eq_true_eq,
        beq_iff_eq] at h1
      obtain ⟨⟨hb23, hlen⟩, hab⟩ := h1
      exact ⟨b, rest, rfl, hb23, hlen, hab⟩
    · rw [if_neg h1] at hp
      by_cases h2 : ((b = 4 || b = 6 || b = 7) && rest.length == 64 && allBytes rest) = true
      · exfalso
        simp only [Bool.and_eq_true, Bool.or_eq_true, decide_eq_true_eq] at h2
        have hb : b = 4 ∨ b = 6 ∨ b = 7 := by tauto
        simp [secpRejectedFormat] at hf
        rcases hb with h | h | h <;> simp [h] at hf
      · rw [if_neg h2] at hp
        exact absurd hp (by simp)

/-- A key the Ed25519 parser accepts is 32 bytes. -/
theorem edParse_shape (pk : List Nat) (p : EdPoint)
    (hp : edParsePubKey pk = some p) :
    pk.length = 32 ∧ allBytes pk = true := by
  by_contra hn
  unfold edParsePubKey at hp
  rw [if_neg hn] at hp
  exact absurd hp (by simp)

/-- Forward success of the raw ECDSA constructor on an accepted key. -/
theorem ecdsaRaw_ctor_ok (pk : List Nat) (p : SecpPoint) (params : AddressParams)
    (hp : secpParsePubKey pk = some p) (hf : secpRejectedFormat pk = false) :
    newAddressPubKeyEcdsaSecp256k1Raw 0 pk params
      = .ok (.pubKeyEcdsaSecp256k1 pk params.pubKeyID) := by
  unfold newAddressPubKeyEcdsaSecp256k1Raw
  rw [if_neg (by omega : ¬(0:Nat) ≠ 0)]
  rw [if_neg (by simp [hf] : ¬secpRejectedFormat pk = true)]
  rw [hp]

/-- Forward success of the raw Schnorr constructor on an accepted key. -/
theorem schnorrRaw_ctor_ok (pk : List Nat) (p : SecpPoint) (params : AddressParams)
    (hp : secpParsePubKey pk = some p) (hf : secpRejectedFormat pk = false) :
    newAddressPubKeySchnorrSecp256k1Raw 0 pk params
      = .ok (.pubKeySchnorrSecp256k1 pk params.pubKeyID) := by
  unfold newAddressPubKeySchnorrSecp256k1Raw
  rw [if_neg (by omega : ¬(0:Nat) ≠ 0)]
  rw [if_neg (by simp [hf] : ¬secpRejectedFormat pk = true)]
  rw [hp]

/-- Forward success of the raw Ed25519 constructor on an accepted key. -/
theorem ed25519Raw_ctor_ok (pk : List Nat) (p : EdPoint) (params : AddressParams)
    (hp : edParsePubKey pk = some p) :
    newAddressPubKeyEd25519Raw 0 pk params
      = .ok (.pubKeyEd25519 pk params.pubKeyID) := by
  unfold newAddressPubKeyEd25519Raw
  rw [if_neg (by omega : ¬(0:Nat) ≠ 0)]
  rw [hp]

/-- Inversion for the raw Schnorr constructor. -/
theorem schnorrRaw_ok_inv (v : Nat) (pk : List Nat) (params : AddressParams)
    (a : AddressV0) (h : newAddressPubKeySchnorrSecp256k1Raw v pk params = .ok a) :
    secpRejectedFormat pk = false ∧ (∃ p, secpParsePubKey pk = some p) ∧
    a = .pubKeySchnorrSecp256k1 pk params.pubKeyID := by
  unfold newAddressPubKeySchnorrSecp256k1Raw at h
  by_cases hv : v ≠ 0
  · rw [if_pos hv] at h; exact absurd h (by simp)
  · rw [if_neg hv] at h
    by_cases hf : secpRejectedFormat pk = true
    · rw [if_pos hf] at h; exact absurd h (by simp)
    · have hf' : secpRejectedFormat pk = false := by
        rwa [Bool.not_eq_true] at hf
      rw [if_neg hf] at h
      cases hp : secpParsePubKey pk with
      | none => rw [hp] at h; exact absurd h (by simp)
      | some p =>
        rw [hp] at h
        injection h with h
        exact ⟨hf', ⟨p, rfl⟩, h.symm⟩

/-- Inversion for the ECDSA pay-to-pubkey-hash constructor. -/
theorem pkhEcdsaCtor_ok_inv (v : Nat) (hsh : List Nat) (params : AddressParams)
    (a : AddressV0) (hok : newAddressPubKeyHashEcdsaSecp256k1 v hsh params = .ok a) :
    hsh.length = 20 ∧ allBytes hsh = true
      ∧ a = .pubKeyHashEcdsaSecp256k1 hsh params.pkhEcdsaID := by
  unfold newAddressPubKeyHashEcdsaSecp256k1 at hok
  by_cases hv : v ≠ 0
  · rw [if_pos hv] at hok; exact absurd hok (by simp)
  · rw [if_neg hv] at hok
    by_cases hc : hsh.length ≠ 20 ∨ ¬allBytes hsh = true
    · rw [if_pos hc] at hok; exact absurd hok (by simp)
    · rw [if_neg hc] at hok
      push_neg at hc
      injection hok with hok
      exact ⟨hc.1, hc.2, hok.symm⟩

/-- Inversion for the Ed25519 pay-to-pubkey-hash constructor. -/
theorem pkhEd25519Ctor_ok_inv (v : Nat) (hsh : List Nat) (params : AddressParams)
    (a : AddressV0) (hok : newAddressPubKeyHashEd25519 v hsh params = .ok a) :
    hsh.length = 20 ∧ allBytes hsh = true
      ∧ a = .pubKeyHashEd25519 hsh params.pkhEd25519ID := by
  unfold newAddressPubKeyHashEd25519 at hok
  by_cases hv : v ≠ 0
  · rw [if_pos hv] at hok; exact absurd hok (by simp)
  · rw [if_neg hv] at hok
    by_cases hc : hsh.length ≠ 20 ∨ ¬allBytes hsh = true
    · rw [if_pos hc] at hok; exact absurd hok (by simp)
    · rw [if_neg hc] at hok
      push_neg at hc
      injection hok with hok
      exact ⟨hc.1, hc.2, hok.symm⟩

/-- Inversion for the Schnorr pay-to-pubkey-hash constructor. -/
theorem pkhSchnorrCtor_ok_inv (v : Nat) (hsh : List Nat) (params : AddressParams)
    (a : AddressV0) (hok : newAddressPubKeyHashSchnorrSecp256k1 v hsh params = .ok a) :
    hsh.length = 20 ∧ allBytes hsh = true
      ∧ a = .pubKeyHashSchnorrSecp256k1 hsh params.pkhSchnorrID := by
  unfold newAddressPubKeyHashSchnorrSecp256k1 at hok
  by_cases hv : v ≠ 0
  · rw [if_pos hv] at hok; exact absurd hok (by simp)
  · rw [if_neg hv] at hok
    by_cases hc : hsh.length ≠ 20 ∨ ¬allBytes hsh = true
    · rw [if_pos hc] at hok; exact absurd hok (by simp)
    · rw [if_neg hc] at hok
      push_neg at hc
      injection hok with hok
      exact ⟨hc.1, hc.2, hok.symm⟩

/-- Inversion for the pay-to-script-hash constructor. -/
theorem scriptHashCtor_ok_inv (v : Nat) (hsh : List Nat) (params : AddressParams)
    (a : AddressV0) (hok : newAddressScriptHashFromHash v hsh params = .ok a) :
    hsh.length = 20 ∧ allBytes hsh = true
      ∧ a = .scriptHash hsh params.scriptHashID := by
  unfold newAddressScriptHashFromHash at hok
  by_cases hv : v ≠ 0
  · rw [if_pos hv] at hok; exact absurd hok (by simp)
  · rw [if_neg hv] at hok
    by_cases hc : hsh.length ≠ 20 ∨ ¬allBytes hsh = true
    · rw [if_pos hc] at hok; exact absurd hok (by simp)
    · rw [if_neg hc] at hok
      push_neg at hc
      injection hok with hok
      exact ⟨hc.1, hc.2, hok.symm⟩

/-- Every encoded byte string passes the alphabet pre-filter. -/
theorem probably_encode (bs : List Nat) :
    probablyV0Base58Addr (b58Encode bs) = true := by
  unfold probablyV0Base58Addr
  rw [b58Encode]
  show (List.replicate (countLeading 0 bs) '1'
    ++ (natDigitsBEF (2 * bs.length + 2) 58 (beNat bs)).map b58CharOf).all
      (fun c => (b58Digit c).isSome) = true
  rw [List.all_append]
  simp only [Bool.and_eq_true]
  constructor
  · rw [List.all_eq_true]
    intro c hc
    have hc1 : c = '1' := List.eq_of_mem_replicate hc
    subst hc1
    decide
  · rw [List.all_eq_true]
    intro c hc
    obtain ⟨d, hd, rfl⟩ := List.mem_map.1 hc
    have hd58 : d < 58 := natDigitsBEF_mem_lt 58 (by omega) _ _ d hd
    rw [b58Digit_charOf d hd58]
    rfl

/-- Every checksummed encoding passes the alphabet pre-filter. -/
theorem probably_checkEncode (pre : Nat × Nat) (payload : List Nat) :
    probablyV0Base58Addr (b58CheckEncode pre payload) = true := by
  unfold b58CheckEncode
  exact probably_encode _

/-- The generic decoder forwards a version 0 success when the pre-filter
passes. -/
theorem decodeAddress_of_v0_ok (s : String) (params : AddressParams) (a : AddressV0)
    (hprob : probablyV0Base58Addr s = true)
    (hv0 : decodeAddressV0 s params = .ok a) :
    decodeAddress s params = .ok a := by
  unfold decodeAddress
  rw [if_pos hprob, hv0]

/-- The version 0 decoder recovers a scriptHash address from its encoding. -/
theorem decodeV0_scriptHash (params : AddressParams) (hsh : List Nat)
    (hl : hsh.length = 20) (hb : allBytes hsh = true)
    (hp1 : params.scriptHashID.1 < 256) (hp2 : params.scriptHashID.2 < 256) :
    decodeAddressV0 (b58CheckEncode params.scriptHashID hsh) params
      = .ok (.scriptHash hsh params.scriptHashID) := by
  unfold decodeAddressV0
  rw [b58CheckDecode_encode_pair _ _ hp1 hp2 hb]
  simp only []
  simp only [if_true]
  unfold newAddressScriptHashFromHash
  rw [if_neg (by omega : ¬(0:Nat) ≠ 0)]
  rw [if_neg (by
    intro hcon
    rcases hcon with hcon | hcon
    · exact hcon hl
    · exact hcon hb)]
  rfl

/-- The version 0 decoder recovers a pubKeyHashEcdsaSecp256k1 address from its encoding. -/
theorem decodeV0_pkhEcdsa (params : AddressParams) (hsh : List Nat)
    (hl : hsh.length = 20) (hb : allBytes hsh = true)
    (hp1 : params.pkhEcdsaID.1 < 256) (hp2 : params.pkhEcdsaID.2 < 256)
    (hne1 : params.pkhEcdsaID ≠ params.scriptHashID) :
    decodeAddressV0 (b58CheckEncode params.pkhEcdsaID hsh) params
      = .ok (.pubKeyHashEcdsaSecp256k1 hsh params.pkhEcdsaID) := by
  unfold decodeAddressV0
  rw [b58CheckDecode_encode_pair _ _ hp1 hp2 hb]
  simp only []
  rw [if_neg hne1]
  simp only [if_true]
  unfold newAddressPubKeyHashEcdsaSecp256k1
  rw [if_neg (by omega : ¬(0:Nat) ≠ 0)]
  rw [if_neg (by
    intro hcon
    rcases hcon with hcon | hcon
    · exact hcon hl
    · exact hcon hb)]
  rfl

/-- The version 0 decoder recovers a pubKeyHashEd25519 address from its encoding. -/
theorem decodeV0_pkhEd25519 (params : AddressParams) (hsh : List Nat)
    (hl : hsh.length = 20) (hb : allBytes hsh = true)
    (hp1 : params.pkhEd25519ID.1 < 256) (hp2 : params.pkhEd25519ID.2 < 256)
    (hne1 : params.pkhEd25519ID ≠ params.scriptHashID)
    (hne2 : params.pkhEd25519ID ≠ params.pkhEcdsaID) :
    decodeAddressV0 (b58CheckEncode params.pkhEd25519ID hsh) params
      = .ok (.pubKeyHashEd25519 hsh params.pkhEd25519ID) := by
  unfold decodeAddressV0
  rw [b58CheckDecode_encode_pair _ _ hp1 hp2 hb]
  simp only []
  rw [if_neg hne1, if_neg hne2]
  simp only [if_true]
  unfold newAddressPubKeyHashEd25519
  rw [if_neg (by omega : ¬(0:Nat) ≠ 0)]
  rw [if_neg (by
    intro hcon
    rcases hcon with hcon | hcon
    · exact hcon hl
    · exact hcon hb)]
  rfl

/-- The version 0 decoder recovers a pubKeyHashSchnorrSecp256k1 address from its encoding. -/
theorem decodeV0_pkhSchnorr (params : AddressParams) (hsh : List Nat)
    (hl : hsh.length = 20) (hb : allBytes hsh = true)
    (hp1 : params.pkhSchnorrID.1 < 256) (hp2 : params.pkhSchnorrID.2 < 256)
    (hne1 : params.pkhSchnorrID ≠ params.scriptHashID)
    (hne2 : params.pkhSchnorrID ≠ params.pkhEcdsaID)
    (hne3 : params.pkhSchnorrID ≠ params.pkhEd25519ID) :
    decodeAddressV0 (b58CheckEncode params.pkhSchnorrID hsh) params
      = .ok (.pubKeyHashSchnorrSecp256k1 hsh params.pkhSchnorrID) := by
  unfold decodeAddressV0
  rw [b58CheckDecode_encode_pair _ _ hp1 hp2 hb]
  simp only []
  rw [if_neg hne1, if_neg hne2, if_neg hne3]
  simp only [if_true]
  unfold newAddressPubKeyHashSchnorrSecp256k1
  rw [if_neg (by omega : ¬(0:Nat) ≠ 0)]
  rw [if_neg (by
    intro hcon
    rcases hcon with hcon | hcon
    · exact hcon hl
    · exact hcon hb)]
  rfl

/-- The version 0 decoder recovers an ECDSA pay-to-pubkey address from the
compact encoding of its key. -/
theorem decodeV0_pubKeyEcdsa (params : AddressParams) (pk : List Nat) (p : SecpPoint)
    (hp : secpParsePubKey pk = some p) (hf : secpRejectedFormat pk = false)
    (hp1 : params.pubKeyID.1 < 256) (hp2 : params.pubKeyID.2 < 256)
    (hne1 : params.pubKeyID ≠ params.scriptHashID)
    (hne2 : params.pubKeyID ≠ params.pkhEcdsaID)
    (hne3 : params.pubKeyID ≠ params.pkhEd25519ID)
    (hne4 : params.pubKeyID ≠ params.pkhSchnorrID) :
    decodeAddressV0 (b58CheckEncode params.pubKeyID (compactSecpPubKey 0 pk)) params
      = .ok (.pubKeyEcdsaSecp256k1 pk params.pubKeyID) := by
  obtain ⟨b, rest, hpk, hb23, hrl, hrb⟩ := secpParse_shape pk p hp hf
  have hctor := ecdsaRaw_ctor_ok pk p params hp hf
  rcases hb23 with hb2 | hb3
  · subst hb2
    have hcompact : compactSecpPubKey 0 pk = 0 :: rest := by
      rw [hpk]; simp [compactSecpPubKey]
    have hpb : allBytes (0 :: rest) = true := by
      simp only [allBytes, List.all_cons, Bool.and_eq_true]
      exact ⟨by simp [Nat.ble_eq], hrb⟩
    rw [hcompact]
    unfold decodeAddressV0
    rw [b58CheckDecode_encode_pair _ _ hp1 hp2 hpb]
    simp only []
    rw [if_neg hne1, if_neg hne2, if_neg hne3, if_neg hne4]
    simp only [if_true]
    rw [if_neg (by omega : ¬(128:Nat) ≤ 0)]
    rw [← hpk, hctor]
    rfl
  · subst hb3
    have hcompact : compactSecpPubKey 0 pk = 128 :: rest := by
      rw [hpk]; simp [compactSecpPubKey]
    have hpb : allBytes (128 :: rest) = true := by
      simp only [allBytes, List.all_cons, Bool.and_eq_true]
      exact ⟨by simp [Nat.ble_eq], hrb⟩
    rw [hcompact]
    unfold decodeAddressV0
    rw [b58CheckDecode_encode_pair _ _ hp1 hp2 hpb]
    simp only []
    rw [if_neg hne1, if_neg hne2, if_neg hne3, if_neg hne4]
    simp only [if_true]
    rw [if_pos (by omega : (128:Nat) ≤ 128)]
    rw [← hpk, hctor]
    rfl

/-- The version 0 decoder recovers a Schnorr pay-to-pubkey address from the
compact encoding of its key. -/
theorem decodeV0_pubKeySchnorr (params : AddressParams) (pk : List Nat) (p : SecpPoint)
    (hp : secpParsePubKey pk = some p) (hf : secpRejectedFormat pk = false)
    (hp1 : params.pubKeyID.1 < 256) (hp2 : params.pubKeyID.2 < 256)
    (hne1 : params.pubKeyID ≠ params.scriptHashID)
    (hne2 : params.pubKeyID ≠ params.pkhEcdsaID)
    (hne3 : params.pubKeyID ≠ params.pkhEd25519ID)
    (hne4 : params.pubKeyID ≠ params.pkhSchnorrID) :
    decodeAddressV0 (b58CheckEncode params.pubKeyID (compactSecpPubKey 2 pk)) params
      = .ok (.pubKeySchnorrSecp256k1 pk params.pubKeyID) := by
  obtain ⟨b, rest, hpk, hb23, hrl, hrb⟩ := secpParse_shape pk p hp hf
  have hctor := schnorrRaw_ctor_ok pk p params hp hf
  rcases hb23 with hb2 | hb3
  · subst hb2
    have hcompact : compactSecpPubKey 2 pk = 2 :: rest := by
      rw [hpk]; simp [compactSecpPubKey]
    have hpb : allBytes (2 :: rest) = true := by
      simp only [allBytes, List.all_cons, Bool.and_eq_true]
      exact ⟨by simp [Nat.ble_eq], hrb⟩
    rw [hcompact]
    unfold decodeAddressV0
    rw [b58CheckDecode_encode_pair _ _ hp1 hp2 hpb]
    simp only []
    rw [if_neg hne1, if_neg hne2, if_neg hne3, if_neg hne4]
    simp only [if_true]
    rw [if_neg (by omega : ¬(128:Nat) ≤ 2)]
    rw [← hpk, hctor]
    rfl
  · subst hb3
    have hcompact : compactSecpPubKey 2 pk = 130 :: rest := by
      rw [hpk]; simp [compactSecpPubKey]
    have hpb : allBytes (130 :: rest) = true := by
      simp only [allBytes, List.all_cons, Bool.and_eq_true]
      exact ⟨by simp [Nat.ble_eq], hrb⟩
    rw [hcompact]
    unfold decodeAddressV0
    rw [b58CheckDecode_encode_pair _ _ hp1 hp2 hpb]
    simp only []
    rw [if_neg hne1, if_neg hne2, if_neg hne3, if_neg hne4]
    simp only [if_true]
    rw [if_pos (by omega : (128:Nat) ≤ 130)]
    rw [← hpk, hctor]
    rfl

/-- The version 0 decoder recovers an Ed25519 pay-to-pubkey address from its
suite-tagged encoding. -/
theorem decodeV0_pubKeyEd25519 (params : AddressParams) (pk : List Nat) (p : EdPoint)
    (hp : edParsePubKey pk = some p)
    (hp1 : params.pubKeyID.1 < 256) (hp2 : params.pubKeyID.2 < 256)
    (hne1 : params.pubKeyID ≠ params.scriptHashID)
    (hne2 : params.pubKeyID ≠ params.pkhEcdsaID)
    (hne3 : params.pubKeyID ≠ params.pkhEd25519ID)
    (hne4 : params.pubKeyID ≠ params.pkhSchnorrID) :
    decodeAddressV0 (b58CheckEncode params.pubKeyID (1 :: pk)) params
      = .ok (.pubKeyEd25519 pk params.pubKeyID) := by
  obtain ⟨hlen, hab⟩ := edParse_shape pk p hp
  have hctor := ed25519Raw_ctor_ok pk p params hp
  have hpb : allBytes (1 :: pk) = true := by
    simp only [allBytes, List.all_cons, Bool.and_eq_true]
    exact ⟨by simp [Nat.ble_eq], hab⟩
  unfold decodeAddressV0
  rw [b58CheckDecode_encode_pair _ _ hp1 hp2 hpb]
  simp only []
  rw [if_neg hne1, if_neg hne2, if_neg hne3, if_neg hne4]
  simp only [if_true]
  rw [hctor]
  rfl

/-- C1: round-trip.  For every supported address variant (any constructor
success, raw pay-to-pubkey, pay-to-pubkey-hash or pay-to-script-hash, at any
version) and each of the three mock networks, decoding the text rendering of
the constructed address succeeds, and the decoded address renders the same
text and the same (version, script) payment script pair. -/
theorem roundtrip_decode_encode (params : AddressParams) (a : AddressV0)
    (hparams : params = mockMainNetParams ∨ params = mockTestNetParams
      ∨ params = mockRegNetParams)
    (hc : (∃ v pk, newAddressPubKeyEcdsaSecp256k1Raw v pk params = .ok a)
      ∨ (∃ v pk, newAddressPubKeySchnorrSecp256k1Raw v pk params = .ok a)
      ∨ (∃ v pk, newAddressPubKeyEd25519Raw v pk params = .ok a)
      ∨ (∃ v hsh, newAddressPubKeyHashEcdsaSecp256k1 v hsh params = .ok a)
      ∨ (∃ v hsh, newAddressPubKeyHashEd25519 v hsh params = .ok a)
      ∨ (∃ v hsh, newAddressPubKeyHashSchnorrSecp256k1 v hsh params = .ok a)
      ∨ (∃ v hsh, newAddressScriptHashFromHash v hsh params = .ok a)) :
    ∃ a2, decodeAddress a.address params = .ok a2
      ∧ a2.address = a.address ∧ a2.paymentScript = a.paymentScript := by
  obtain ⟨f1, f2, f3, f4, f5, f6, f7, f8, f9, f10,
      g1, g2, g3, g4, g5, g6, g7, g8, g9, g10⟩ :
      params.pubKeyID.1 < 256 ∧ params.pubKeyID.2 < 256
      ∧ params.pkhEcdsaID.1 < 256 ∧ params.pkhEcdsaID.2 < 256
      ∧ params.pkhEd25519ID.1 < 256 ∧ params.pkhEd25519ID.2 < 256
      ∧ params.pkhSchnorrID.1 < 256 ∧ params.pkhSchnorrID.2 < 256
      ∧ params.scriptHashID.1 < 256 ∧ params.scriptHashID.2 < 256
      ∧ params.pkhEcdsaID ≠ params.scriptHashID
      ∧ params.pkhEd25519ID ≠ params.scriptHashID
      ∧ params.pkhEd25519ID ≠ params.pkhEcdsaID
      ∧ params.pkhSchnorrID ≠ params.scriptHashID
      ∧ params.pkhSchnorrID ≠ params.pkhEcdsaID
      ∧ params.pkhSchnorrID ≠ params.pkhEd25519ID
      ∧ params.pubKeyID ≠ params.scriptHashID
      ∧ params.pubKeyID ≠ params.pkhEcdsaID
      ∧ params.pubKeyID ≠ params.pkhEd25519ID
      ∧ params.pubKeyID ≠ params.pkhSchnorrID := by
    rcases hparams with h | h | h <;> subst h <;> decide
  rcases hc with ⟨v, pk, hok⟩ | ⟨v, pk, hok⟩ | ⟨v, pk, hok⟩ | ⟨v, hsh, hok⟩
    | ⟨v, hsh, hok⟩ | ⟨v, hsh, hok⟩ | ⟨v, hsh, hok⟩
  · obtain ⟨hf, ⟨p, hp⟩, ha⟩ := ecdsaRaw_ok_inv v pk params a hok
    subst ha
    exact ⟨_, decodeAddress_of_v0_ok _ params _
      (probably_checkEncode params.pubKeyID (compactSecpPubKey 0 pk))
      (decodeV0_pubKeyEcdsa params pk p hp hf f1 f2 g7 g8 g9 g10), rfl, rfl⟩
  · obtain ⟨hf, ⟨p, hp⟩, ha⟩ := schnorrRaw_ok_inv v pk params a hok
    subst ha
    exact ⟨_, decodeAddress_of_v0_ok _ params _
      (probably_checkEncode params.pubKeyID (compactSecpPubKey 2 pk))
      (decodeV0_pubKeySchnorr params pk p hp hf f1 f2 g7 g8 g9 g10), rfl, rfl⟩
  · obtain ⟨hlen, ⟨p, hp⟩, ha⟩ := ed25519Raw_ok_inv v pk params a hok
    subst ha
    exact ⟨_, decodeAddress_of_v0_ok _ params _
      (probably_checkEncode params.pubKeyID (1 :: pk))
      (decodeV0_pubKeyEd25519 params pk p hp f1 f2 g7 g8 g9 g10), rfl, rfl⟩
  · obtain ⟨hl, hb, ha⟩ := pkhEcdsaCtor_ok_inv v hsh params a hok
    subst ha
    exact ⟨_, decodeAddress_of_v0_ok _ params _
      (probably_checkEncode params.pkhEcdsaID hsh)
      (decodeV0_pkhEcdsa params hsh hl hb f3 f4 g1), rfl, rfl⟩
  · obtain ⟨hl, hb, ha⟩ := pkhEd25519Ctor_ok_inv v hsh params a hok
    subst ha
    exact ⟨_, decodeAddress_of_v0_ok _ params _
      (probably_checkEncode params.pkhEd25519ID hsh)
      (decodeV0_pkhEd25519 params hsh hl hb f5 f6 g2 g3), rfl, rfl⟩
  · obtain ⟨hl, hb, ha⟩ := pkhSchnorrCtor_ok_inv v hsh params a hok
    subst ha
    exact ⟨_, decodeAddress_of_v0_ok _ params _
      (probably_checkEncode params.pkhSchnorrID hsh)
      (decodeV0_pkhSchnorr params hsh hl hb f7 f8 g4 g5 g6), rfl, rfl⟩
  · obtain ⟨hl, hb, ha⟩ := scriptHashCtor_ok_inv v hsh params a hok
    subst ha
    exact ⟨_, decodeAddress_of_v0_ok _ params _
      (probably_checkEncode params.scriptHashID hsh)
      (decodeV0_scriptHash params hsh hl hb f9 f10), rfl, rfl⟩

/-- Witness for C1 at a concrete mainnet pay-to-pubkey-hash address built
from the test-vector hash. -/
theorem roundtrip_decode_encode_witness :
    ∃ a2, decodeAddress
        (AddressV0.pubKeyHashEcdsaSecp256k1
          [39, 137, 213, 140, 250, 9, 87, 210, 6, 240, 37, 194, 175, 5, 111,
            200, 167, 124, 235, 176] (7, 63)).address mockMainNetParams = .ok a2
      ∧ a2.address = (AddressV0.pubKeyHashEcdsaSecp256k1
          [39, 137, 213, 140, 250, 9, 87, 210, 6, 240, 37, 194, 175, 5, 111,
            200, 167, 124, 235, 176] (7, 63)).address
      ∧ a2.paymentScript = (AddressV0.pubKeyHashEcdsaSecp256k1
          [39, 137, 213, 140, 250, 9, 87, 210, 6, 240, 37, 194, 175, 5, 111,
            200, 167, 124, 235, 176] (7, 63)).paymentScript :=
  roundtrip_decode_encode mockMainNetParams
    (AddressV0.pubKeyHashEcdsaSecp256k1
      [39, 137, 213, 140, 250, 9, 87, 210, 6, 240, 37, 194, 175, 5, 111,
        200, 167, 124, 235, 176] (7, 63))
    (Or.inl rfl)
    (Or.inr (Or.inr (Or.inr (Or.inl ⟨0,
      [39, 137, 213, 140, 250, 9, 87, 210, 6, 240, 37, 194, 175, 5, 111,
        200, 167, 124, 235, 176], by decide⟩))))

/-- Splitting a boolean list-all at an index. -/
theorem all_take_drop (l : List String) (p : String → Bool) (k : Nat) :
    l.all p = ((l.take k).all p && (l.drop k).all p) := by
  conv_lhs => rw [← List.take_append_drop k l]
  exact List.all_append

/-- Mutation sweep, first 57 single-character mutations. -/
theorem sweepTk0 : (((mutationsOf "TsmWaPM77WSyA3aiQ2Q1KnwGDVWvEkhipBc").take 57).all
    (fun m => !(decodeAddress m mockTestNetParams).isOk)) = true := by decide

/-- Mutation sweep, mutations 57 to 113. -/
theorem sweepTk1 : ((((mutationsOf "TsmWaPM77WSyA3aiQ2Q1KnwGDVWvEkhipBc").drop 57).take 57).all
    (fun m => !(decodeAddress m mockTestNetParams).isOk)) = true := by decide

/-- Mutation sweep, mutations 114 to 170. -/
theorem sweepTk2 : ((((mutationsOf "TsmWaPM77WSyA3aiQ2Q1KnwGDVWvEkhipBc").drop 114).take 57).all
    (fun m => !(decodeAddress m mockTestNetParams).isOk)) = true := by decide

/-- Mutation sweep, mutations 171 to 227. -/
theorem sweepTk3 : ((((mutationsOf "TsmWaPM77WSyA3aiQ2Q1KnwGDVWvEkhipBc").drop 171).take 57).all
    (fun m => !(decodeAddress m mockTestNetParams).isOk)) = true := by decide

/-- Mutation sweep, mutations 228 to 284. -/
theorem sweepTk4 : ((((mutationsOf "TsmWaPM77WSyA3aiQ2Q1KnwGDVWvEkhipBc").drop 228).take 57).all
    (fun m => !(decodeAddress m mockTestNetParams).isOk)) = true := by decide

/-- Mutation sweep, mutations 285 to 341. -/
theorem sweepTk5 : ((((mutationsOf "TsmWaPM77WSyA3aiQ2Q1KnwGDVWvEkhipBc").drop 285).take 57).all
    (fun m => !(decodeAddress m mockTestNetParams).isOk)) = true := by decide

/-- Mutation sweep, mutations 342 to 398. -/
theorem sweepTk6 : ((((mutationsOf "TsmWaPM77WSyA3aiQ2Q1KnwGDVWvEkhipBc").drop 342).take 57).all
    (fun m => !(decodeAddress m mockTestNetParams).isOk)) = true := by decide

/-- Mutation sweep, mutations 399 to 455. -/
theorem sweepTk7 : ((((mutationsOf "TsmWaPM77WSyA3aiQ2Q1KnwGDVWvEkhipBc").drop 399).take 57).all
    (fun m => !(decodeAddress m mockTestNetParams).isOk)) = true := by decide

/-- Mutation sweep, mutations 456 to 512. -/
theorem sweepTk8 : ((((mutationsOf "TsmWaPM77WSyA3aiQ2Q1KnwGDVWvEkhipBc").drop 456).take 57).all
    (fun m => !(decodeAddress m mockTestNetParams).isOk)) = true := by decide

/-- Mutation sweep, mutations 513 to 569. -/
theorem sweepTk9 : ((((mutationsOf "TsmWaPM77WSyA3aiQ2Q1KnwGDVWvEkhipBc").drop 513).take 57).all
    (fun m => !(decodeAddress m mockTestNetParams).isOk)) = true := by decide

/-- Mutation sweep, mutations 570 to 626. -/
theorem sweepTk10 : ((((mutationsOf "TsmWaPM77WSyA3aiQ2Q1KnwGDVWvEkhipBc").drop 570).take 57).all
    (fun m => !(decodeAddress m mockTestNetParams).isOk)) = true := by decide

/-- Mutation sweep, mutations 627 to 683. -/
theorem sweepTk11 : ((((mutationsOf "TsmWaPM77WSyA3aiQ2Q1KnwGDVWvEkhipBc").drop 627).take 57).all
    (fun m => !(decodeAddress m mockTestNetParams).isOk)) = true := by decide

/-- Mutation sweep, mutations 684 to 740. -/
theorem sweepTk12 : ((((mutationsOf "TsmWaPM77WSyA3aiQ2Q1KnwGDVWvEkhipBc").drop 684).take 57).all
    (fun m => !(decodeAddress m mockTestNetParams).isOk)) = true := by decide

/-- Mutation sweep, mutations 741 to 797. -/
theorem sweepTk13 : ((((mutationsOf "TsmWaPM77WSyA3aiQ2Q1KnwGDVWvEkhipBc").drop 741).take 57).all
    (fun m => !(decodeAddress m mockTestNetParams).isOk)) = true := by decide

/-- Mutation sweep, mutations 798 to 854. -/
theorem sweepTk14 : ((((mutationsOf "TsmWaPM77WSyA3aiQ2Q1KnwGDVWvEkhipBc").drop 798).take 57).all
    (fun m => !(decodeAddress m mockTestNetParams).isOk)) = true := by decide

/-- Mutation sweep, mutations 855 to 911. -/
theorem sweepTk15 : ((((mutationsOf "TsmWaPM77WSyA3aiQ2Q1KnwGDVWvEkhipBc").drop 855).take 57).all
    (fun m => !(decodeAddress m mockTestNetParams).isOk)) = true := by decide

/-- Mutation sweep, mutations 912 to 968. -/
theorem sweepTk16 : ((((mutationsOf "TsmWaPM77WSyA3aiQ2Q1KnwGDVWvEkhipBc").drop 912).take 57).all
    (fun m => !(decodeAddress m mockTestNetParams).isOk)) = true := by decide

/-- Mutation sweep, mutations 969 to 1025. -/
theorem sweepTk17 : ((((mutationsOf "TsmWaPM77WSyA3aiQ2Q1KnwGDVWvEkhipBc").drop 969).take 57).all
    (fun m => !(decodeAddress m mockTestNetParams).isOk)) = true := by decide

/-- Mutation sweep, mutations 1026 to 1082. -/
theorem sweepTk18 : ((((mutationsOf "TsmWaPM77WSyA3aiQ2Q1KnwGDVWvEkhipBc").drop 1026).take 57).all
    (fun m => !(decodeAddress m mockTestNetParams).isOk)) = true := by decide

/-- Mutation sweep, mutations 1083 to 1139. -/
theorem sweepTk19 : ((((mutationsOf "TsmWaPM77WSyA3aiQ2Q1KnwGDVWvEkhipBc").drop 1083).take 57).all
    (fun m => !(decodeAddress m mockTestNetParams).isOk)) = true := by decide

/-- Mutation sweep, mutations 1140 to 1196. -/
theorem sweepTk20 : ((((mutationsOf "TsmWaPM77WSyA3aiQ2Q1KnwGDVWvEkhipBc").drop 1140).take 57).all
    (fun m => !(decodeAddress m mockTestNetParams).isOk)) = true := by decide

/-- Mutation sweep, mutations 1197 to 1253. -/
theorem sweepTk21 : ((((mutationsOf "TsmWaPM77WSyA3aiQ2Q1KnwGDVWvEkhipBc").drop 1197).take 57).all
    (fun m => !(decodeAddress m mockTestNetParams).isOk)) = true := by decide

/-- Mutation sweep, mutations 1254 to 1310. -/
theorem sweepTk22 : ((((mutationsOf "TsmWaPM77WSyA3aiQ2Q1KnwGDVWvEkhipBc").drop 1254).take 57).all
    (fun m => !(decodeAddress m mockTestNetParams).isOk)) = true := by decide

/-- Mutation sweep, mutations 1311 to 1367. -/
theorem sweepTk23 : ((((mutationsOf "TsmWaPM77WSyA3aiQ2Q1KnwGDVWvEkhipBc").drop 1311).take 57).all
    (fun m => !(decodeAddress m mockTestNetParams).isOk)) = true := by decide

/-- Mutation sweep, mutations 1368 to 1424. -/
theorem sweepTk24 : ((((mutationsOf "TsmWaPM77WSyA3aiQ2Q1KnwGDVWvEkhipBc").drop 1368).take 57).all
    (fun m => !(decodeAddress m mockTestNetParams).isOk)) = true := by decide

/-- Mutation sweep, mutations 1425 to 1481. -/
theorem sweepTk25 : ((((mutationsOf "TsmWaPM77WSyA3aiQ2Q1KnwGDVWvEkhipBc").drop 1425).take 57).all
    (fun m => !(decodeAddress m mockTestNetParams).isOk)) = true := by decide

/-- Mutation sweep, mutations 1482 to 1538. -/
theorem sweepTk26 : ((((mutationsOf "TsmWaPM77WSyA3aiQ2Q1KnwGDVWvEkhipBc").drop 1482).take 57).all
    (fun m => !(decodeAddress m mockTestNetParams).isOk)) = true := by decide

/-- Mutation sweep, mutations 1539 to 1595. -/
theorem sweepTk27 : ((((mutationsOf "TsmWaPM77WSyA3aiQ2Q1KnwGDVWvEkhipBc").drop 1539).take 57).all
    (fun m => !(decodeAddress m mockTestNetParams).isOk)) = true := by decide

/-- Mutation sweep, mutations 1596 to 1652. -/
theorem sweepTk28 : ((((mutationsOf "TsmWaPM77WSyA3aiQ2Q1KnwGDVWvEkhipBc").drop 1596).take 57).all
    (fun m => !(decodeAddress m mockTestNetParams).isOk)) = true := by decide

/-- Mutation sweep, mutations 1653 to 1709. -/
theorem sweepTk29 : ((((mutationsOf "TsmWaPM77WSyA3aiQ2Q1KnwGDVWvEkhipBc").drop 1653).take 57).all
    (fun m => !(decodeAddress m mockTestNetParams).isOk)) = true := by decide

/-- Mutation sweep, mutations 1710 to 1766. -/
theorem sweepTk30 : ((((mutationsOf "TsmWaPM77WSyA3aiQ2Q1KnwGDVWvEkhipBc").drop 1710).take 57).all
    (fun m => !(decodeAddress m mockTestNetParams).isOk)) = true := by decide

/-- Mutation sweep, mutations 1767 to 1823. -/
theorem sweepTk31 : ((((mutationsOf "TsmWaPM77WSyA3aiQ2Q1KnwGDVWvEkhipBc").drop 1767).take 57).all
    (fun m => !(decodeAddress m mockTestNetParams).isOk)) = true := by decide

/-- Mutation sweep, mutations 1824 to 1880. -/
theorem sweepTk32 : ((((mutationsOf "TsmWaPM77WSyA3aiQ2Q1KnwGDVWvEkhipBc").drop 1824).take 57).all
    (fun m => !(decodeAddress m mockTestNetParams).isOk)) = true := by decide

/-- Mutation sweep, mutations 1881 to 1937. -/
theorem sweepTk33 : ((((mutationsOf "TsmWaPM77WSyA3aiQ2Q1KnwGDVWvEkhipBc").drop 1881).take 57).all
    (fun m => !(decodeAddress m mockTestNetParams).isOk)) = true := by decide

/-- Mutation sweep, final 57 mutations. -/
theorem sweepTl34 : (((mutationsOf "TsmWaPM77WSyA3aiQ2Q1KnwGDVWvEkhipBc").drop 1938).all
    (fun m => !(decodeAddress m mockTestNetParams).isOk)) = true := by decide

/-- Mutation sweep, all mutations from index 1881 on. -/
theorem sweepTl33 : (((mutationsOf "TsmWaPM77WSyA3aiQ2Q1KnwGDVWvEkhipBc").drop 1881).all
    (fun m => !(decodeAddress m mockTestNetParams).isOk)) = true := by
  rw [all_take_drop _ _ 57, sweepTk33, Bool.true_and, List.drop_drop]
  exact sweepTl34

/-- Mutation sweep, all mutations from index 1824 on. -/
theorem sweepTl32 : (((mutationsOf "TsmWaPM77WSyA3aiQ2Q1KnwGDVWvEkhipBc").drop 1824).all
    (fun m => !(decodeAddress m mockTestNetParams).isOk)) = true := by
  rw [all_take_drop _ _ 57, sweepTk32, Bool.true_and, List.drop_drop]
  exact sweepTl33

/-- Mutation sweep, all mutations from index 1767 on. -/
theorem sweepTl31 : (((mutationsOf "TsmWaPM77WSyA3aiQ2Q1KnwGDVWvEkhipBc").drop 1767).all
    (fun m => !(decodeAddress m mockTestNetParams).isOk)) = true := by
  rw [all_take_drop _ _ 57, sweepTk31, Bool.true_and, List.drop_drop]
  exact sweepTl32

/-- Mutation sweep, all mutations from index 1710 on. -/
theorem sweepTl30 : (((mutationsOf "TsmWaPM77WSyA3aiQ2Q1KnwGDVWvEkhipBc").drop 1710).all
    (fun m => !(decodeAddress m mockTestNetParams).isOk)) = true := by
  rw [all_take_drop _ _ 57, sweepTk30, Bool.true_and, List.drop_drop]
  exact sweepTl31

/-- Mutation sweep, all mutations from index 1653 on. -/
theorem sweepTl29 : (((mutationsOf "TsmWaPM77WSyA3aiQ2Q1KnwGDVWvEkhipBc").drop 1653).all
    (fun m => !(decodeAddress m mockTestNetParams).isOk)) = true := by
  rw [all_take_drop _ _ 57, sweepTk29, Bool.true_and, List.drop_drop]
  exact sweepTl30

/-- Mutation sweep, all mutations from index 1596 on. -/
theorem sweepTl28 : (((mutationsOf "TsmWaPM77WSyA3aiQ2Q1KnwGDVWvEkhipBc").drop 1596).all
    (fun m => !(decodeAddress m mockTestNetParams).isOk)) = true := by
  rw [all_take_drop _ _ 57, sweepTk28, Bool.true_and, List.drop_drop]
  exact sweepTl29

/-- Mutation sweep, all mutations from index 1539 on. -/
theorem sweepTl27 : (((mutationsOf "TsmWaPM77WSyA3aiQ2Q1KnwGDVWvEkhipBc").drop 1539).all
    (fun m => !(decodeAddress m mockTestNetParams).isOk)) = true := by
  rw [all_take_drop _ _ 57, sweepTk27, Bool.true_and, List.drop_drop]
  exact sweepTl28

/-- Mutation sweep, all mutations from index 1482 on. -/
theorem sweepTl26 : (((mutationsOf "TsmWaPM77WSyA3aiQ2Q1KnwGDVWvEkhipBc").drop 1482).all
    (fun m => !(decodeAddress m mockTestNetParams).isOk)) = true := by
  rw [all_take_drop _ _ 57, sweepTk26, Bool.true_and, List.drop_drop]
  exact sweepTl27

/-- Mutation sweep, all mutations from index 1425 on. -/
theorem sweepTl25 : (((mutationsOf "TsmWaPM77WSyA3aiQ2Q1KnwGDVWvEkhipBc").drop 1425).all
    (fun m => !(decodeAddress m mockTestNetParams).isOk)) = true := by
  rw [all_take_drop _ _ 57, sweepTk25, Bool.true_and, List.drop_drop]
  exact sweepTl26

/-- Mutation sweep, all mutations from index 1368 on. -/
theorem sweepTl24 : (((mutationsOf "TsmWaPM77WSyA3aiQ2Q1KnwGDVWvEkhipBc").drop 1368).all
    (fun m => !(decodeAddress m mockTestNetParams).isOk)) = true := by
  rw [all_take_drop _ _ 57, sweepTk24, Bool.true_and, List.drop_drop]
  exact sweepTl25

/-- Mutation sweep, all mutations from index 1311 on. -/
theorem sweepTl23 : (((mutationsOf "TsmWaPM77WSyA3aiQ2Q1KnwGDVWvEkhipBc").drop 1311).all
    (fun m => !(decodeAddress m mockTestNetParams).isOk)) = true := by
  rw [all_take_drop _ _ 57, sweepTk23, Bool.true_and, List.drop_drop]
  exact sweepTl24

/-- Mutation sweep, all mutations from index 1254 on. -/
theorem sweepTl22 : (((mutationsOf "TsmWaPM77WSyA3aiQ2Q1KnwGDVWvEkhipBc").drop 1254).all
    (fun m => !(decodeAddress m mockTestNetParams).isOk)) = true := by
  rw [all_take_drop _ _ 57, sweepTk22, Bool.true_and, List.drop_drop]
  exact sweepTl23

/-- Mutation sweep, all mutations from index 1197 on. -/
theorem sweepTl21 : (((mutationsOf "TsmWaPM77WSyA3aiQ2Q1KnwGDVWvEkhipBc").drop 1197).all
    (fun m => !(decodeAddress m mockTestNetParams).isOk)) = true := by
  rw [all_take_drop _ _ 57, sweepTk21, Bool.true_and, List.drop_drop]
  exact sweepTl22

/-- Mutation sweep, all mutations from index 1140 on. -/
theorem sweepTl20 : (((mutationsOf "TsmWaPM77WSyA3aiQ2Q1KnwGDVWvEkhipBc").drop 1140).all
    (fun m => !(decodeAddress m mockTestNetParams).isOk)) = true := by
  rw [all_take_drop _ _ 57, sweepTk20, Bool.true_and, List.drop_drop]
  exact sweepTl21

/-- Mutation sweep, all mutations from index 1083 on. -/
theorem sweepTl19 : (((mutationsOf "TsmWaPM77WSyA3aiQ2Q1KnwGDVWvEkhipBc").drop 1083).all
    (fun m => !(decodeAddress m mockTestNetParams).isOk)) = true := by
  rw [all_take_drop _ _ 57, sweepTk19, Bool.true_and, List.drop_drop]
  exact sweepTl20

/-- Mutation sweep, all mutations from index 1026 on. -/
theorem sweepTl18 : (((mutationsOf "TsmWaPM77WSyA3aiQ2Q1KnwGDVWvEkhipBc").drop 1026).all
    (fun m => !(decodeAddress m mockTestNetParams).isOk)) = true := by
  rw [all_take_drop _ _ 57, sweepTk18, Bool.true_and, List.drop_drop]
  exact sweepTl19

/-- Mutation sweep, all mutations from index 969 on. -/
theorem sweepTl17 : (((mutationsOf "TsmWaPM77WSyA3aiQ2Q1KnwGDVWvEkhipBc").drop 969).all
    (fun m => !(decodeAddress m mockTestNetParams).isOk)) = true := by
  rw [all_take_drop _ _ 57, sweepTk17, Bool.true_and, List.drop_drop]
  exact sweepTl18

/-- Mutation sweep, all mutations from index 912 on. -/
theorem sweepTl16 : (((mutationsOf "TsmWaPM77WSyA3aiQ2Q1KnwGDVWvEkhipBc").drop 912).all
    (fun m => !(decodeAddress m mockTestNetParams).isOk)) = true := by
  rw [all_take_drop _ _ 57, sweepTk16, Bool.true_and, List.drop_drop]
  exact sweepTl17

/-- Mutation sweep, all mutations from index 855 on. -/
theorem sweepTl15 : (((mutationsOf "TsmWaPM77WSyA3aiQ2Q1KnwGDVWvEkhipBc").drop 855).all
    (fun m => !(decodeAddress m mockTestNetParams).isOk)) = true := by
  rw [all_take_drop _ _ 57, sweepTk15, Bool.true_and, List.drop_drop]
  exact sweepTl16

/-- Mutation sweep, all mutations from index 798 on. -/
theorem sweepTl14 : (((mutationsOf "TsmWaPM77WSyA3aiQ2Q1KnwGDVWvEkhipBc").drop 798).all
    (fun m => !(decodeAddress m mockTestNetParams).isOk)) = true := by
  rw [all_take_drop _ _ 57, sweepTk14, Bool.true_and, List.drop_drop]
  exact sweepTl15

/-- Mutation sweep, all mutations from index 741 on. -/
theorem sweepTl13 : (((mutationsOf "TsmWaPM77WSyA3aiQ2Q1KnwGDVWvEkhipBc").drop 741).all
    (fun m => !(decodeAddress m mockTestNetParams).isOk)) = true := by
  rw [all_take_drop _ _ 57, sweepTk13, Bool.true_and, List.drop_drop]
  exact sweepTl14

/-- Mutation sweep, all mutations from index 684 on. -/
theorem sweepTl12 : (((mutationsOf "TsmWaPM77WSyA3aiQ2Q1KnwGDVWvEkhipBc").drop 684).all
    (fun m => !(decodeAddress m mockTestNetParams).isOk)) = true := by
  rw [all_take_drop _ _ 57, sweepTk12, Bool.true_and, List.drop_drop]
  exact sweepTl13

/-- Mutation sweep, all mutations from index 627 on. -/
theorem sweepTl11 : (((mutationsOf "TsmWaPM77WSyA3aiQ2Q1KnwGDVWvEkhipBc").drop 627).all
    (fun m => !(decodeAddress m mockTestNetParams).isOk)) = true := by
  rw [all_take_drop _ _ 57, sweepTk11, Bool.true_and, List.drop_drop]
  exact sweepTl12

/-- Mutation sweep, all mutations from index 570 on. -/
theorem sweepTl10 : (((mutationsOf "TsmWaPM77WSyA3aiQ2Q1KnwGDVWvEkhipBc").drop 570).all
    (fun m => !(decodeAddress m mockTestNetParams).isOk)) = true := by
  rw [all_take_drop _ _ 57, sweepTk10, Bool.true_and, List.drop_drop]
  exact sweepTl11

/-- Mutation sweep, all mutations from index 513 on. -/
theorem sweepTl9 : (((mutationsOf "TsmWaPM77WSyA3aiQ2Q1KnwGDVWvEkhipBc").drop 513).all
    (fun m => !(decodeAddress m mockTestNetParams).isOk)) = true := by
  rw [all_take_drop _ _ 57, sweepTk9, Bool.true_and, List.drop_drop]
  exact sweepTl10

/-- Mutation sweep, all mutations from index 456 on. -/
theorem sweepTl8 : (((mutationsOf "TsmWaPM77WSyA3aiQ2Q1KnwGDVWvEkhipBc").drop 456).all
    (fun m => !(decodeAddress m mockTestNetParams).isOk)) = true := by
  rw [all_take_drop _ _ 57, sweepTk8, Bool.true_and, List.drop_drop]
  exact sweepTl9

/-- Mutation sweep, all mutations from index 399 on. -/
theorem sweepTl7 : (((mutationsOf "TsmWaPM77WSyA3aiQ2Q1KnwGDVWvEkhipBc").drop 399).all
    (fun m => !(decodeAddress m mockTestNetParams).isOk)) = true := by
  rw [all_take_drop _ _ 57, sweepTk7, Bool.true_and, List.drop_drop]
  exact sweepTl8

/-- Mutation sweep, all mutations from index 342 on. -/
theorem sweepTl6 : (((mutationsOf "TsmWaPM77WSyA3aiQ2Q1KnwGDVWvEkhipBc").drop 342).all
    (fun m => !(decodeAddress m mockTestNetParams).isOk)) = true := by
  rw [all_take_drop _ _ 57, sweepTk6, Bool.true_and, List.drop_drop]
  exact sweepTl7

/-- Mutation sweep, all mutations from index 285 on. -/
theorem sweepTl5 : (((mutationsOf "TsmWaPM77WSyA3aiQ2Q1KnwGDVWvEkhipBc").drop 285).all
    (fun m => !(decodeAddress m mockTestNetParams).isOk)) = true := by
  rw [all_take_drop _ _ 57, sweepTk5, Bool.true_and, List.drop_drop]
  exact sweepTl6

/-- Mutation sweep, all mutations from index 228 on. -/
theorem sweepTl4 : (((mutationsOf "TsmWaPM77WSyA3aiQ2Q1KnwGDVWvEkhipBc").drop 228).all
    (fun m => !(decodeAddress m mockTestNetParams).isOk)) = true := by
  rw [all_take_drop _ _ 57, sweepTk4, Bool.true_and, List.drop_drop]
  exact sweepTl5

/-- Mutation sweep, all mutations from index 171 on. -/
theorem sweepTl3 : (((mutationsOf "TsmWaPM77WSyA3aiQ2Q1KnwGDVWvEkhipBc").drop 171).all
    (fun m => !(decodeAddress m mockTestNetParams).isOk)) = true := by
  rw [all_take_drop _ _ 57, sweepTk3, Bool.true_and, List.drop_drop]
  exact sweepTl4

/-- Mutation sweep, all mutations from index 114 on. -/
theorem sweepTl2 : (((mutationsOf "TsmWaPM77WSyA3aiQ2Q1KnwGDVWvEkhipBc").drop 114).all
    (fun m => !(decodeAddress m mockTestNetParams).isOk)) = true := by
  rw [all_take_drop _ _ 57, sweepTk2, Bool.true_and, List.drop_drop]
  exact sweepTl3

/-- Mutation sweep, all mutations from index 57 on. -/
theorem sweepTl1 : (((mutationsOf "TsmWaPM77WSyA3aiQ2Q1KnwGDVWvEkhipBc").drop 57).all
    (fun m => !(decodeAddress m mockTestNetParams).isOk)) = true := by
  rw [all_take_drop _ _ 57, sweepTk1, Bool.true_and, List.drop_drop]
  exact sweepTl2

/-- Mutation sweep: no single-character mutation of the base text decodes
successfully. -/
theorem sweepTl0 : ((mutationsOf "TsmWaPM77WSyA3aiQ2Q1KnwGDVWvEkhipBc").all
    (fun m => !(decodeAddress m mockTestNetParams).isOk)) = true := by
  rw [all_take_drop _ _ 57, sweepTk0, Bool.true_and]
  exact sweepTl1

/-- C4: checksum sensitivity.  Any text whose checksummed decode fails
checksum verification makes the generic decoder fail with the bad-checksum
verdict (in particular the mutated test string against testnet params), the
unmutated base string decodes successfully, and no single-character mutation
of it over the codec alphabet decodes successfully. -/
theorem checksum_mutation_detected :
    (∀ s params, b58CheckDecode s = .error .badChecksum →
      decodeAddress s params = .error .badAddressChecksum)
    ∧ decodeAddress "TsmWaPM77WSyA3aiQ2Q1KnwGDVWvEkhip23" mockTestNetParams
        = .error .badAddressChecksum
    ∧ (decodeAddress "TsmWaPM77WSyA3aiQ2Q1KnwGDVWvEkhipBc" mockTestNetParams).isOk = true
    ∧ ((mutationsOf "TsmWaPM77WSyA3aiQ2Q1KnwGDVWvEkhipBc").all
        (fun m => !(decodeAddress m mockTestNetParams).isOk)) = true := by
  refine ⟨?_, by decide, by decide, sweepTl0⟩
  intro s params h
  have hv0 : decodeAddressV0 s params = .error .badAddressChecksum := by
    unfold decodeAddressV0
    rw [h]
  unfold decodeAddress
  rw [if_pos (badChecksum_probably s h), hv0]
  simp

/-- Witness for C4 at the mutated test string: its checksummed decode is a
checksum mismatch and the generic decoder reports the bad-checksum verdict. -/
theorem checksum_mutation_detected_witness :
    decodeAddress "TsmWaPM77WSyA3aiQ2Q1KnwGDVWvEkhip23" mockTestNetParams
      = .error .badAddressChecksum :=
  checksum_mutation_detected.1 "TsmWaPM77WSyA3aiQ2Q1KnwGDVWvEkhip23"
    mockTestNetParams (by decide)
